import Mathlib

/-!
# Verification of the RapidChangeATC macro-expansion engine

Shallow embedding of the pure macro-expansion core of the RapidChangeATC
plugin (settings normalization, pocket-position geometry, sensor-check
strategy, G-code formatter, tool load/unload routine builders, program
builders, and the command scanner/splicer), together with proofs of the
spec's testable properties.

Embedding conventions:
* JavaScript numbers are modelled as `ℚ` (the engine performs only exact
  arithmetic: sums, products, clamps); fields produced by `parseInt` are `Int`.
* Multi-line G-code template strings are modelled as `List String`, one
  element per template line, with each literal line stored trimmed.  An
  interpolation `${x}` of a multi-line value occupies a whole template line
  in the source and is spliced as a list; an empty-string interpolation
  yields the empty splice (the source's per-line trim-and-drop-blank pass
  in `formatGCode` makes these representations interchangeable).
* Number interpolation into G-code text uses `qStr`; integral values render
  exactly as in JavaScript, non-integral values render as fractions (no
  claim depends on fractional rendering, and `qStr` never produces a
  newline or a space).
* Raw configuration objects are modelled by `Raw`, with `Option` for absent
  fields and `JVal` (number / string / boolean / null) for fields whose
  value the code inspects dynamically; fields the code only ever reads as
  strings or booleans are typed as such.
-/

namespace RapidChangeATC

/-- Whitespace characters recognised by the JavaScript `trim` /  `\s`
(ASCII subset; the commands and templates involved contain no exotic
whitespace). -/
def isWsChar (c : Char) : Bool :=
  c == ' ' || c == '\t' || c == '\n' || c == '\r'

/-- JavaScript `String.prototype.trim` (drop leading and trailing
whitespace). -/
def jsTrim (s : String) : String :=
  ⟨((s.data.dropWhile isWsChar).reverse.dropWhile isWsChar).reverse⟩

/-- JavaScript `String.prototype.toUpperCase` (ASCII). -/
def jsUpper (s : String) : String :=
  ⟨s.data.map Char.toUpper⟩

/-- ASCII decimal digit test. -/
def isDigitChar (c : Char) : Bool :=
  '0' ≤ c && c ≤ '9'

/-- Numeric value of a list of decimal digits. -/
def digitsToNat (l : List Char) : Nat :=
  l.foldl (fun acc c => acc * 10 + (c.toNat - '0'.toNat)) 0

/-- A JavaScript value in a configuration field the code inspects
dynamically: a finite number, a string, a boolean, or `null` (an absent
property is `none` at the `Option JVal` level). -/
inductive JVal where
  | num (q : ℚ)
  | str (s : String)
  | boolean (b : Bool)
  | jnull
deriving DecidableEq

/-- Truncation of a rational toward zero, as JavaScript number-to-string
followed by `parseInt` effects on a finite decimal. -/
def ratTrunc (q : ℚ) : Int :=
  if q < 0 then -((-q).floor) else q.floor

/-- `10^e` for an integer exponent. -/
def pow10 (e : Int) : ℚ :=
  if 0 ≤ e then ((10 : ℚ) ^ e.toNat) else 1 / ((10 : ℚ) ^ (-e).toNat)

/-- Exponent suffix of a JavaScript float literal: `e`/`E`, optional sign,
digits; an incomplete exponent contributes factor `0` (i.e. is ignored). -/
def expSuffix (l : List Char) : Int :=
  match l with
  | 'e' :: rest => expSigned rest
  | 'E' :: rest => expSigned rest
  | _ => 0
where
  expSigned : List Char → Int
    | '-' :: ds =>
        if (ds.takeWhile isDigitChar).isEmpty then 0
        else -(digitsToNat (ds.takeWhile isDigitChar) : Int)
    | '+' :: ds =>
        if (ds.takeWhile isDigitChar).isEmpty then 0
        else (digitsToNat (ds.takeWhile isDigitChar) : Int)
    | ds =>
        if (ds.takeWhile isDigitChar).isEmpty then 0
        else (digitsToNat (ds.takeWhile isDigitChar) : Int)

/-- JavaScript `Number.parseFloat` on a string: leading whitespace, optional
sign, integer digits, optional fractional digits, optional exponent;
`none` models `NaN` (no digits found). -/
def parseFloatStr (s : String) : Option ℚ :=
  let l0 := s.data.dropWhile isWsChar
  let sign : ℚ := match l0 with
    | '-' :: _ => -1
    | _ => 1
  let l := match l0 with
    | '-' :: rest => rest
    | '+' :: rest => rest
    | _ => l0
  let intPart := l.takeWhile isDigitChar
  let l1 := l.dropWhile isDigitChar
  let fracPart := match l1 with
    | '.' :: rest => rest.takeWhile isDigitChar
    | _ => []
  let l2 := match l1 with
    | '.' :: rest => rest.dropWhile isDigitChar
    | _ => l1
  if intPart.isEmpty && fracPart.isEmpty then none
  else
    some (sign * (digitsToNat (intPart ++ fracPart) : ℚ)
      / pow10 (fracPart.length) * pow10 (expSuffix l2))

/-- JavaScript `Number.parseInt(·, 10)` on a string: leading whitespace,
optional sign, leading digit run; `none` models `NaN`. -/
def parseIntStr (s : String) : Option Int :=
  let l0 := s.data.dropWhile isWsChar
  let sign : Int := match l0 with
    | '-' :: _ => -1
    | _ => 1
  let l := match l0 with
    | '-' :: rest => rest
    | '+' :: rest => rest
    | _ => l0
  let ds := l.takeWhile isDigitChar
  if ds.isEmpty then none else some (sign * (digitsToNat ds : Int))

/-- `Number.parseFloat` applied to a configuration field (`none` = `NaN`);
booleans and `null` stringify to non-numeric text. -/
def jsParseFloat : Option JVal → Option ℚ
  | some (.num q) => some q
  | some (.str s) => parseFloatStr s
  | some (.boolean _) => none
  | some .jnull => none
  | none => none

/-- `Number.parseInt(·, 10)` applied to a configuration field. -/
def jsParseInt : Option JVal → Option Int
  | some (.num q) => some (ratTrunc q)
  | some (.str s) => parseIntStr s
  | some (.boolean _) => none
  | some .jnull => none
  | none => none

/-- Source `toFiniteNumber`: `parseFloat` with `NaN`-to-fallback. -/
def toFiniteNumber (v : Option JVal) (fallback : ℚ := 0) : ℚ :=
  (jsParseFloat v).getD fallback

/-- JavaScript `??` on a dynamically-typed field (`null` and absent both
fall through). -/
def jvCoalesce (a b : Option JVal) : Option JVal :=
  match a with
  | none => b
  | some .jnull => b
  | some v => some v

/-- Source test `value !== undefined && value !== null`. -/
def isPresent : Option JVal → Bool
  | none => false
  | some .jnull => false
  | some _ => true

/-- Source `clampPockets`. -/
def clampPockets (v : Option JVal) : Int :=
  match jsParseInt v with
  | none => 6
  | some p => min (max p 1) 8

/-- Source `clampAtcStartDelay`. -/
def clampAtcStartDelay (v : Option JVal) : Int :=
  match jsParseInt v with
  | none => 0
  | some p => min (max p 0) 10

/-- Source `clampRpm` (defined in the source but never called by
`buildInitialConfig` or anything else). -/
def clampRpm (v : Option JVal) : Option Int :=
  match jsParseInt v with
  | none => none
  | some p => some (min (max p 500) 2000)

def ALLOWED_COLLET_SIZES : List String := ["ER11", "ER16", "ER20", "ER25", "ER32"]
def ALLOWED_MODELS : List String := ["Basic", "Pro", "Premium"]
def ORIENTATIONS : List String := ["X", "Y"]
def DIRECTIONS : List String := ["Positive", "Negative"]

/-- Reserved probe tool number. -/
def PROBE_TOOL_NUMBER : Int := 99

def sanitizeColletSize (v : Option String) : String :=
  match v with
  | some s => if ALLOWED_COLLET_SIZES.contains s then s else "ER20"
  | none => "ER20"

def sanitizeModel (v : Option String) : String :=
  match v with
  | some s => if ALLOWED_MODELS.contains s then s else "Pro"
  | none => "Pro"

def sanitizeOrientation (v : Option String) : String :=
  match v with
  | some s => if ORIENTATIONS.contains s then s else "Y"
  | none => "Y"

def sanitizeDirection (v : Option String) : String :=
  match v with
  | some s => if DIRECTIONS.contains s then s else "Negative"
  | none => "Negative"

/-- An {x, y} position pair. -/
structure Coords where
  x : ℚ
  y : ℚ
deriving DecidableEq

/-- A raw {x?, y?} object supplied for a position field. -/
structure RawCoords where
  x : Option JVal := none
  y : Option JVal := none
deriving DecidableEq

/-- Source `sanitizeCoords` (with its `= {}` default parameter). -/
def sanitizeCoords (c : Option RawCoords) : Coords :=
  let c := c.getD {}
  ⟨toFiniteNumber c.x 0, toFiniteNumber c.y 0⟩

def getDefaultLoadRpm (colletSize : String) : ℚ :=
  if colletSize = "ER16" then 1600 else 1200

def getDefaultUnloadRpm (colletSize : String) : ℚ :=
  if colletSize = "ER16" then 2000 else 1500

def getDefaultSpindleAtSpeed (_colletSize : String) : Bool := true

def getDefaultZRetreat (colletSize : String) : ℚ :=
  if colletSize = "ER16" then 17 else 7

/-- Normalized `tlsAuxOutput`: either the coolant-relay token (`'M7'`/`'M8'`
kept as a string by the source) or a numeric pin (with `-1` = disabled). -/
inductive TlsOut where
  | coolant (s : String)
  | pin (q : ℚ)
deriving DecidableEq

/-- A raw (partial, arbitrary) configuration object. -/
structure Raw where
  colletSize : Option String := none
  model : Option String := none
  trip : Option String := none
  modelName : Option String := none
  machineModel : Option String := none
  orientation : Option String := none
  direction : Option String := none
  showMacroCommand : Option Bool := none
  performTlsAfterHome : Option Bool := none
  spindleAtSpeed : Option Bool := none
  addProbe : Option Bool := none
  pockets : Option JVal := none
  atcStartDelay : Option JVal := none
  spindleDelay : Option JVal := none
  pocket1 : Option RawCoords := none
  toolSetter : Option RawCoords := none
  manualTool : Option RawCoords := none
  pocketDistance : Option JVal := none
  zEngagement : Option JVal := none
  zSafe : Option JVal := none
  zSpinOff : Option JVal := none
  zRetreat : Option JVal := none
  zProbeStart : Option JVal := none
  zone1 : Option JVal := none
  zone2 : Option JVal := none
  loadRpm : Option JVal := none
  unloadRpm : Option JVal := none
  engageFeedrate : Option JVal := none
  seekDistance : Option JVal := none
  seekFeedrate : Option JVal := none
  toolSensor : Option String := none
  probeLoadGcode : Option String := none
  probeUnloadGcode : Option String := none
  preToolChangeGcode : Option String := none
  postToolChangeGcode : Option String := none
  abortEventGcode : Option String := none
  tlsAuxOutput : Option JVal := none
deriving DecidableEq

/-- The canonical, always-valid settings record produced by the
normalizer. -/
structure Settings where
  colletSize : String
  pockets : Int
  model : String
  orientation : String
  direction : String
  showMacroCommand : Bool
  performTlsAfterHome : Bool
  spindleAtSpeed : Bool
  addProbe : Bool
  atcStartDelay : Int
  pocket1 : Coords
  toolSetter : Coords
  manualTool : Coords
  pocketDistance : ℚ
  zEngagement : ℚ
  zSafe : ℚ
  zSpinOff : ℚ
  zRetreat : ℚ
  zProbeStart : ℚ
  zone1 : ℚ
  zone2 : ℚ
  loadRpm : ℚ
  unloadRpm : ℚ
  engageFeedrate : ℚ
  seekDistance : ℚ
  seekFeedrate : ℚ
  toolSensor : String
  probeLoadGcode : String
  probeUnloadGcode : String
  preToolChangeGcode : String
  postToolChangeGcode : String
  abortEventGcode : String
  tlsAuxOutput : TlsOut
deriving DecidableEq

/-- Source `buildInitialConfig`: the settings normalizer. -/
def buildInitialConfig (raw : Raw) : Settings :=
  let colletSize := sanitizeColletSize (raw.colletSize <|> raw.model)
  let loadRpm :=
    if isPresent raw.loadRpm then toFiniteNumber raw.loadRpm (getDefaultLoadRpm colletSize)
    else getDefaultLoadRpm colletSize
  let unloadRpm :=
    if isPresent raw.unloadRpm then toFiniteNumber raw.unloadRpm (getDefaultUnloadRpm colletSize)
    else getDefaultUnloadRpm colletSize
  let spindleAtSpeed :=
    match raw.spindleAtSpeed with
    | some b => b
    | none => getDefaultSpindleAtSpeed colletSize
  let zRetreat :=
    if isPresent raw.zRetreat then toFiniteNumber raw.zRetreat (getDefaultZRetreat colletSize)
    else getDefaultZRetreat colletSize
  { colletSize := colletSize
    pockets := clampPockets raw.pockets
    model := sanitizeModel (raw.model <|> raw.trip <|> raw.modelName <|> raw.machineModel)
    orientation := sanitizeOrientation raw.orientation
    direction := sanitizeDirection raw.direction
    showMacroCommand := raw.showMacroCommand.getD false
    performTlsAfterHome := raw.performTlsAfterHome.getD false
    spindleAtSpeed := spindleAtSpeed
    addProbe := raw.addProbe.getD false
    atcStartDelay := clampAtcStartDelay (jvCoalesce raw.atcStartDelay raw.spindleDelay)
    pocket1 := sanitizeCoords raw.pocket1
    toolSetter := sanitizeCoords raw.toolSetter
    manualTool := sanitizeCoords raw.manualTool
    pocketDistance := toFiniteNumber raw.pocketDistance 45
    zEngagement := toFiniteNumber raw.zEngagement (-50)
    zSafe := toFiniteNumber raw.zSafe 0
    zSpinOff := toFiniteNumber raw.zSpinOff 23
    zRetreat := zRetreat
    zProbeStart := toFiniteNumber raw.zProbeStart (-20)
    zone1 := toFiniteNumber raw.zone1 (-27)
    zone2 := toFiniteNumber raw.zone2 (-22)
    loadRpm := loadRpm
    unloadRpm := unloadRpm
    engageFeedrate := toFiniteNumber raw.engageFeedrate 3500
    seekDistance := toFiniteNumber raw.seekDistance 50
    seekFeedrate := toFiniteNumber raw.seekFeedrate 500
    toolSensor := raw.toolSensor.getD "Probe/TLS"
    probeLoadGcode := raw.probeLoadGcode.getD ""
    probeUnloadGcode := raw.probeUnloadGcode.getD ""
    preToolChangeGcode := raw.preToolChangeGcode.getD ""
    postToolChangeGcode := raw.postToolChangeGcode.getD ""
    abortEventGcode := raw.abortEventGcode.getD ""
    tlsAuxOutput :=
      if raw.tlsAuxOutput = some (.str "M7") then .coolant "M7"
      else if raw.tlsAuxOutput = some (.str "M8") then .coolant "M8"
      else .pin (toFiniteNumber raw.tlsAuxOutput (-1)) }

/-- Re-presentation of a normalized settings record as a raw input object
(the identity data embedding used to state normalizer idempotence). -/
def settingsToRaw (s : Settings) : Raw :=
  { colletSize := some s.colletSize
    model := some s.model
    orientation := some s.orientation
    direction := some s.direction
    showMacroCommand := some s.showMacroCommand
    performTlsAfterHome := some s.performTlsAfterHome
    spindleAtSpeed := some s.spindleAtSpeed
    addProbe := some s.addProbe
    pockets := some (.num s.pockets)
    atcStartDelay := some (.num s.atcStartDelay)
    pocket1 := some ⟨some (.num s.pocket1.x), some (.num s.pocket1.y)⟩
    toolSetter := some ⟨some (.num s.toolSetter.x), some (.num s.toolSetter.y)⟩
    manualTool := some ⟨some (.num s.manualTool.x), some (.num s.manualTool.y)⟩
    pocketDistance := some (.num s.pocketDistance)
    zEngagement := some (.num s.zEngagement)
    zSafe := some (.num s.zSafe)
    zSpinOff := some (.num s.zSpinOff)
    zRetreat := some (.num s.zRetreat)
    zProbeStart := some (.num s.zProbeStart)
    zone1 := some (.num s.zone1)
    zone2 := some (.num s.zone2)
    loadRpm := some (.num s.loadRpm)
    unloadRpm := some (.num s.unloadRpm)
    engageFeedrate := some (.num s.engageFeedrate)
    seekDistance := some (.num s.seekDistance)
    seekFeedrate := some (.num s.seekFeedrate)
    toolSensor := some s.toolSensor
    probeLoadGcode := some s.probeLoadGcode
    probeUnloadGcode := some s.probeUnloadGcode
    preToolChangeGcode := some s.preToolChangeGcode
    postToolChangeGcode := some s.postToolChangeGcode
    abortEventGcode := some s.abortEventGcode
    tlsAuxOutput := some (match s.tlsAuxOutput with
      | .coolant c => .str c
      | .pin q => .num q) }

/-- Source `calculatePocketPosition`: pure pocket geometry. -/
def calculatePocketPosition (s : Settings) (toolNum : Int) : Coords :=
  if toolNum ≤ 0 then
    ⟨s.pocket1.x, s.pocket1.y⟩
  else
    let direction : ℚ := if s.direction = "Negative" then -1 else 1
    let offset : ℚ := ((toolNum - 1 : Int) : ℚ) * s.pocketDistance * direction
    if s.orientation = "Y" then
      ⟨s.pocket1.x, s.pocket1.y + offset⟩
    else
      ⟨s.pocket1.x + offset, s.pocket1.y⟩

/-- Rendering of a number into G-code text (JavaScript template
interpolation).  Integral values render exactly as in JavaScript;
non-integral values render as `num/den` (no claim depends on fractional
rendering).  Never produces a newline or a space. -/
def qStr (x : ℚ) : String :=
  if x.den = 1 then toString x.num else toString x.num ++ "/" ++ toString x.den

/-- Does `pat` occur as a contiguous sublist of the second argument?
(JavaScript `String.prototype.includes` at the character-list level.) -/
def listContains (pat : List Char) : List Char → Bool
  | [] => pat.isEmpty
  | c :: rest => pat.isPrefixOf (c :: rest) || listContains pat rest

/-- JavaScript `s.includes(pat)`. -/
def strContains (s pat : String) : Bool :=
  listContains pat.data s.data

/-- One attempt of the `/Aux P(\d+)/i` regex at the head of the character
list: case-insensitive literal `Aux P` followed by at least one digit;
returns the captured (greedy) digit run. -/
def auxTryHere : List Char → Option String
  | a :: u :: x :: sp :: p :: rest =>
      if a.toUpper == 'A' && u.toUpper == 'U' && x.toUpper == 'X' && sp == ' '
          && p.toUpper == 'P' then
        let ds := rest.takeWhile isDigitChar
        if ds.isEmpty then none else some ⟨ds⟩
      else none
  | _ => none

/-- Leftmost match of `toolSensor.match(/Aux P(\d+)/i)`, returning the
captured port-number digits. -/
def auxScan : List Char → Option String
  | [] => none
  | c :: rest =>
      match auxTryHere (c :: rest) with
      | some ds => some ds
      | none => auxScan rest

/-- `toolSensor.match(/Aux P(\d+)/i)` capture. -/
def auxPortMatch (s : String) : Option String :=
  auxScan s.data

/-- Source `getSensorCheckCondition`: the sensor-check strategy.  The
returned string may span two lines (auxiliary-port mode: a sample
instruction then the branch opener); it is modelled as its line list. -/
def getSensorCheckCondition (toolSensor : String) (checkValue : Nat) (oNumber : Nat) :
    List String :=
  match auxPortMatch toolSensor with
  | some portNumber =>
      if checkValue = 0 then
        ["M66 P" ++ portNumber ++ " L3 Q0.2",
         "o" ++ toString oNumber ++ " IF [#5399 EQ -1]"]
      else
        ["M66 P" ++ portNumber ++ " L3 Q0.2",
         "o" ++ toString oNumber ++ " IF [#5399 NE -1]"]
  | none =>
      if toolSensor = "Probe/TLS" then
        if checkValue = 0 then
          ["o" ++ toString oNumber ++ " IF [#<_probe_state> EQ 0 AND #<_toolsetter_state> EQ 0]"]
        else
          ["o" ++ toString oNumber ++ " IF [#<_probe_state> EQ 1 OR #<_toolsetter_state> EQ 1]"]
      else
        ["o" ++ toString oNumber ++ " IF [#<" ++ toolSensor ++ "> EQ "
          ++ toString checkValue ++ "]"]

/-- Source `getSensorCheckClose`. -/
def getSensorCheckClose (oNumber : Nat) : String :=
  "o" ++ toString oNumber ++ " ENDIF"

/-- `'  '.repeat(n)`. -/
def indentStr (n : Nat) : String :=
  ⟨List.replicate (2 * n) ' '⟩

/-- The split-trim-drop-blanks pass at the head of the source
`formatGCode` (the input string's `split('\n')` is the list argument). -/
def cleanLines (ls : List String) : List String :=
  (ls.map jsTrim).filter (fun l => l ≠ "")

/-- Does the (upper-cased) line close a block per the source formatter? -/
def isCloseLine (upperLine : String) : Bool :=
  strContains upperLine "ENDIF" || strContains upperLine "ENDWHILE"
    || strContains upperLine "ENDREPEAT" || strContains upperLine "ENDSUB"
    || strContains upperLine "ELSE"

/-- Does the (upper-cased) line open a block per the source formatter? -/
def isOpenLine (upperLine : String) : Bool :=
  strContains upperLine " IF " || strContains upperLine " WHILE "
    || strContains upperLine " DO " || strContains upperLine "REPEAT"
    || strContains upperLine " SUB"

/-- Indentation fold of the source `formatGCode` over cleaned lines.  The
source's `Math.max(0, indentLevel - 1)` is `Nat` truncated subtraction. -/
def formatGCodeAux : Nat → List String → List String
  | _, [] => []
  | level, line :: rest =>
      let upperLine := jsUpper line
      let isOCode : Bool := upperLine.data.head? == some 'O'
      let level1 := if isOCode && isCloseLine upperLine then level - 1 else level
      let emitted := indentStr level1 ++ line
      let level2 := if isOCode && isOpenLine upperLine then level1 + 1 else level1
      let level3 :=
        if isOCode && strContains upperLine "ELSE" && !strContains upperLine "ELSEIF" then
          level2 + 1
        else level2
      emitted :: formatGCodeAux level3 rest

/-- Source `formatGCode`, over the line list of its input string. -/
def formatGCode (ls : List String) : List String :=
  formatGCodeAux 0 (cleanLines ls)

/-- The indent level at which `formatGCodeAux` emits a line (the
close-keyword decrement, clamped at zero by `Nat` subtraction). -/
def emitLevel (level : Nat) (line : String) : Nat :=
  let upperLine := jsUpper line
  let isOCode : Bool := upperLine.data.head? == some 'O'
  if isOCode && isCloseLine upperLine then level - 1 else level

/-- The indent level `formatGCodeAux` passes to the rest of the lines. -/
def nextLevel (level : Nat) (line : String) : Nat :=
  let upperLine := jsUpper line
  let isOCode : Bool := upperLine.data.head? == some 'O'
  let level1 := emitLevel level line
  let level2 := if isOCode && isOpenLine upperLine then level1 + 1 else level1
  if isOCode && strContains upperLine "ELSE" && !strContains upperLine "ELSEIF" then
    level2 + 1
  else level2

/-- `split('\n')` at the character level (structurally recursive).  `cur`
holds the characters of the current field in reverse. -/
def splitNlAux (cur : List Char) : List Char → List String
  | [] => [⟨cur.reverse⟩]
  | c :: rest =>
      if c = '\n' then ⟨cur.reverse⟩ :: splitNlAux [] rest
      else splitNlAux (c :: cur) rest

/-- JavaScript `s.split('\n')`. -/
def splitNl (s : String) : List String :=
  splitNlAux [] s.data

/-- Line list of a free-text G-code snippet interpolated into a template
(the source trims the snippet as a whole before splicing; the per-line
trim happens later in `formatGCode`). -/
def snippetLines (s : String) : List String :=
  splitNl (jsTrim s)

/-- An {x, y, z} tool-offset triple. -/
structure Coords3 where
  x : ℚ
  y : ℚ
  z : ℚ
deriving DecidableEq

/-- Source `createManualToolFallback`: park at the manual-tool bay and
issue a programmed pause. -/
def createManualToolFallback (s : Settings) : List String :=
  ["G53 G0 Z" ++ qStr s.zSafe,
   "G53 G0 X" ++ qStr s.manualTool.x ++ " Y" ++ qStr s.manualTool.y,
   "M0"]

/-- Source `createToolUnload`: the single spin-off/engage/retreat unload
cycle (an empty `g65p6` interpolation yields a blank template line, which
the formatter drops; it is the empty splice here). -/
def createToolUnload (s : Settings) : List String :=
  let g65p6 : List String := if s.spindleAtSpeed then [] else ["G65P6"]
  ["G53 G0 Z" ++ qStr (s.zEngagement + s.zSpinOff)]
    ++ g65p6
    ++ ["M4 S" ++ qStr s.unloadRpm,
        "G53 G1 Z" ++ qStr s.zEngagement ++ " F" ++ qStr s.engageFeedrate,
        "G53 G1 Z" ++ qStr (s.zEngagement + s.zRetreat) ++ " F" ++ qStr s.engageFeedrate]
    ++ g65p6
    ++ ["M5",
        "G53 G0 Z" ++ qStr s.zone1,
        "G4 P0.2"]

/-- Source `createToolLoad`: spin forward, triple engage/retreat, then the
two-zone sensor verification with Manual-Fallback failure branches and the
final offset-register activation. -/
def createToolLoad (s : Settings) (tool : Int) : List String :=
  let manualFallback := createManualToolFallback s
  let g65p6 : List String := if s.spindleAtSpeed then [] else ["G65P6"]
  let sensorCheckNotTriggered := getSensorCheckCondition s.toolSensor 0 300
  let sensorCheckTriggered := getSensorCheckCondition s.toolSensor 1 301
  ["G53 G0 Z" ++ qStr (s.zEngagement + s.zSpinOff)]
    ++ g65p6
    ++ ["M3 S" ++ qStr s.loadRpm,
        "G53 G1 Z" ++ qStr s.zEngagement ++ " F" ++ qStr s.engageFeedrate,
        "G53 G1 Z" ++ qStr (s.zEngagement + s.zRetreat) ++ " F" ++ qStr s.engageFeedrate,
        "G53 G1 Z" ++ qStr s.zEngagement ++ " F" ++ qStr s.engageFeedrate,
        "G53 G1 Z" ++ qStr (s.zEngagement + s.zRetreat) ++ " F" ++ qStr s.engageFeedrate,
        "G53 G1 Z" ++ qStr s.zEngagement ++ " F" ++ qStr s.engageFeedrate,
        "G53 G1 Z" ++ qStr (s.zEngagement + s.zRetreat) ++ " F" ++ qStr s.engageFeedrate]
    ++ g65p6
    ++ ["M5",
        "G53 G0 Z" ++ qStr s.zone1,
        "G4 P0.2"]
    ++ sensorCheckNotTriggered
    ++ ["G4 P0",
        "(MSG, PLUGIN_RAPIDCHANGEATC:FAILED_LOAD_TOOL)"]
    ++ manualFallback
    ++ ["o300 ELSE",
        "G53 G0 Z" ++ qStr s.zone2,
        "G4 P0.2"]
    ++ sensorCheckTriggered
    ++ ["G4 P0",
        "(MSG, PLUGIN_RAPIDCHANGEATC:FAILED_LOAD_TOOL)"]
    ++ manualFallback
    ++ [getSensorCheckClose 301,
        getSensorCheckClose 300,
        "M61 Q" ++ toString tool]

/-- Source `createToolLengthSetRoutine`. -/
def createToolLengthSetRoutine (s : Settings)
    (toolOffsets : Coords3 := ⟨0, 0, 0⟩) : List String :=
  let tlsX := s.toolSetter.x + toolOffsets.x
  let tlsY := s.toolSetter.y + toolOffsets.y
  let tlsZ := toolOffsets.z
  let extraZMove : List String :=
    if tlsZ ≠ 0 then ["G91 G0 Z" ++ qStr tlsZ, "G90"] else []
  let auxOn : List String :=
    match s.tlsAuxOutput with
    | .coolant c => if c = "M7" ∨ c = "M8" then ["G4 P0", c, "G4 P0"] else []
    | .pin q => if 0 ≤ q then ["G4 P0", "M64 P" ++ qStr q, "G4 P0"] else []
  let auxOff : List String :=
    match s.tlsAuxOutput with
    | .coolant c => if c = "M7" ∨ c = "M8" then ["G4 P0", "M9", "G4 P0"] else []
    | .pin q => if 0 ≤ q then ["G4 P0", "M65 P" ++ qStr q, "G4 P0"] else []
  ["G53 G0 Z" ++ qStr s.zSafe,
   "G53 G0 X" ++ qStr tlsX ++ " Y" ++ qStr tlsY,
   "G53 G0 Z" ++ qStr s.zProbeStart]
    ++ extraZMove
    ++ auxOn
    ++ ["G43.1 Z0",
        "G38.2 G91 Z-" ++ qStr s.seekDistance ++ " F" ++ qStr s.seekFeedrate,
        "G4 P0.2",
        "G38.4 G91 Z5 F75",
        "G91 G0 Z5",
        "G90"]
    ++ auxOff
    ++ ["#<_ofs_idx> = [#5220 * 20 + 5203]",
        "#<_cur_wcs_z_ofs> = #[#<_ofs_idx>]",
        "#<_nc_last_tlo> = [#5063 + #<_cur_wcs_z_ofs>]",
        "G43.1 Z[#<_nc_last_tlo>]",
        "(Notify ncSender that toolLengthSet is now set)",
        "$#=_tool_offset"]

/-- Source `createToolLengthSetProgram`. -/
def createToolLengthSetProgram (s : Settings)
    (toolOffsets : Coords3 := ⟨0, 0, 0⟩) : List String :=
  formatGCode
    (["(Start of Tool Length Setter)"]
      ++ snippetLines s.preToolChangeGcode
      ++ ["#<return_units> = [20 + #<_metric>]", "G21"]
      ++ createToolLengthSetRoutine s toolOffsets
      ++ ["G53 G0 Z" ++ qStr s.zSafe, "G4 P0", "G[#<return_units>]"]
      ++ snippetLines s.postToolChangeGcode
      ++ ["(End of Tool Length Setter)"])

/-- Source `buildUnloadTool`: tool 0 → empty section; tool 99 → probe
snippet or manual fallback; tool beyond the pocket range → manual
fallback; otherwise the unload routine with one sensor-checked retry and
a Manual-Fallback failure branch. -/
def buildUnloadTool (s : Settings) (currentTool : Int) (sourcePos : Coords) :
    List String :=
  if currentTool = 0 then []
  else if currentTool = PROBE_TOOL_NUMBER then
    if jsTrim s.probeUnloadGcode ≠ "" then
      ["(Unload Probe Tool T" ++ toString PROBE_TOOL_NUMBER ++ ")",
       "G53 G0 Z" ++ qStr s.zSafe]
        ++ snippetLines s.probeUnloadGcode
        ++ ["M61 Q0"]
    else
      ["G53 G0 Z" ++ qStr s.zSafe,
       "G4 P0",
       "(MSG, PLUGIN_RAPIDCHANGEATC:MANUAL_UNLOAD_PROBE)"]
        ++ createManualToolFallback s
        ++ ["M61 Q0"]
  else if s.pockets < currentTool then
    ["G53 G0 Z" ++ qStr s.zSafe,
     "G4 P0",
     "(MSG, PLUGIN_RAPIDCHANGEATC:MANUAL_UNLOAD_TOOL)"]
      ++ createManualToolFallback s
      ++ ["M61 Q0"]
  else
    ["G53 G0 Z" ++ qStr s.zSafe,
     "G53 G0 X" ++ qStr sourcePos.x ++ " Y" ++ qStr sourcePos.y]
      ++ createToolUnload s
      ++ getSensorCheckCondition s.toolSensor 1 100
      ++ createToolUnload s
      ++ getSensorCheckCondition s.toolSensor 1 101
      ++ ["G4 P0",
          "(MSG, PLUGIN_RAPIDCHANGEATC:FAILED_UNLOAD_TOOL)"]
      ++ createManualToolFallback s
      ++ [getSensorCheckClose 101,
          getSensorCheckClose 100,
          "M61 Q0"]

/-- Source `buildLoadTool`. -/
def buildLoadTool (s : Settings) (toolNumber : Int) (targetPos : Coords)
    (tlsRoutine : List String) : List String :=
  if toolNumber = 0 then []
  else if toolNumber = PROBE_TOOL_NUMBER then
    if jsTrim s.probeLoadGcode ≠ "" then
      ["(Load Probe Tool T" ++ toString PROBE_TOOL_NUMBER ++ ")",
       "G53 G0 Z" ++ qStr s.zSafe,
       "M61 Q" ++ toString PROBE_TOOL_NUMBER]
        ++ snippetLines s.probeLoadGcode
        ++ tlsRoutine
    else
      ["G53 G0 Z" ++ qStr s.zSafe,
       "G4 P0",
       "(MSG, PLUGIN_RAPIDCHANGEATC:MANUAL_LOAD_PROBE)"]
        ++ createManualToolFallback s
        ++ ["M61 Q" ++ toString PROBE_TOOL_NUMBER]
        ++ tlsRoutine
  else if toolNumber ≤ s.pockets then
    ["G53 G0 Z" ++ qStr s.zSafe,
     "G53 G0 X" ++ qStr targetPos.x ++ " Y" ++ qStr targetPos.y]
      ++ createToolLoad s toolNumber
      ++ tlsRoutine
  else
    ["G53 G0 Z" ++ qStr s.zSafe,
     "G4 P0",
     "(MSG, PLUGIN_RAPIDCHANGEATC:MANUAL_LOAD_TOOL)"]
      ++ createManualToolFallback s
      ++ ["M61 Q" ++ toString toolNumber]
      ++ tlsRoutine

/-- Source `buildToolChangeProgram`. -/
def buildToolChangeProgram (s : Settings) (currentTool toolNumber : Int)
    (toolOffsets : Coords3 := ⟨0, 0, 0⟩) : List String :=
  let sourcePos := calculatePocketPosition s currentTool
  let targetPos := calculatePocketPosition s toolNumber
  let tlsRoutine := createToolLengthSetRoutine s toolOffsets
  let atcStartDelaySection : List String :=
    if 0 < s.atcStartDelay then ["G4 P" ++ toString s.atcStartDelay] else []
  formatGCode
    (["(Start of RapidChangeATC Plugin Sequence)"]
      ++ snippetLines s.preToolChangeGcode
      ++ ["#<return_units> = [20 + #<_metric>]", "G21", "M5"]
      ++ atcStartDelaySection
      ++ buildUnloadTool s currentTool sourcePos
      ++ buildLoadTool s toolNumber targetPos tlsRoutine
      ++ ["G53 G0 Z" ++ qStr s.zSafe, "G4 P0", "G[#<return_units>]"]
      ++ snippetLines s.postToolChangeGcode
      ++ ["(End of RapidChangeATC Plugin Sequence)"])

/-- Greedy digit run at the head of the list: its numeric value and the
rest.  Models both `\d+` and the combined `0*(\d+)` of the source pattern
(the leading zeros eaten by `0*` do not change the captured number). -/
def digitRun (l : List Char) : Option (Nat × List Char) :=
  let ds := l.takeWhile isDigitChar
  if ds.isEmpty then none else some (digitsToNat ds, l.dropWhile isDigitChar)

/-- `0*` (greedy) before a literal `6`; backtracking can never help since
every dropped character is a `0` and `0 ≠ 6`. -/
def dropZeros (l : List Char) : List Char :=
  l.dropWhile (· == '0')

/-- Tail of alternative A of `M6_PATTERN` after `M0*6` when no `T<digits>`
follows: the lookahead `(?=[^0-9T])` or end-of-string. -/
def m6NoToolTail : List Char → Option (Option Nat)
  | [] => some none
  | c :: _ => if !isDigitChar c && c ≠ 'T' then some none else none

/-- Alternative `M0*6(?:\s*T0*(\d+)|(?=[^0-9T])|$)` of the source
`M6_PATTERN`, tried at the current position (the input is already
upper-cased). -/
def m6AltA : List Char → Option (Option Nat)
  | 'M' :: rest =>
      (match dropZeros rest with
      | '6' :: rest2 =>
          (match rest2.dropWhile isWsChar with
          | 'T' :: rest4 =>
              (match digitRun rest4 with
              | some (n, _) => some (some n)
              | none => m6NoToolTail rest2)
          | _ => m6NoToolTail rest2)
      | _ => none)
  | _ => none

/-- Alternative `T0*(\d+)\s*M0*6(?:[^0-9]|$)` of the source `M6_PATTERN`,
tried at the current position. -/
def m6AltB : List Char → Option (Option Nat)
  | 'T' :: rest =>
      (match digitRun rest with
      | some (n, rest2) =>
          (match rest2.dropWhile isWsChar with
          | 'M' :: rest4 =>
              (match dropZeros rest4 with
              | '6' :: rest5 =>
                  (match rest5 with
                  | [] => some (some n)
                  | c :: _ => if !isDigitChar c then some (some n) else none)
              | _ => none)
          | _ => none)
      | none => none)
  | _ => none

/-- Left-to-right scan of `M6_PATTERN` over the normalized command: each
alternative may start at position 0 or after a non-alphabetic character
(the `(?:^|[^A-Z])` prefix group).  The regex engine's attempt order can
differ from this scan only when alternative B succeeds at some position
while alternative A succeeds one position later, which is impossible
because B starts with the letter `T`. -/
def m6Scan : Option Char → List Char → Option (Option Nat)
  | _, [] => none
  | prev, c :: rest =>
      let okStart := match prev with
        | none => true
        | some p => !('A' ≤ p && p ≤ 'Z')
      if okStart then
        match m6AltA (c :: rest) with
        | some r => some r
        | none =>
            match m6AltB (c :: rest) with
            | some r => some r
            | none => m6Scan (some c) rest
      else m6Scan (some c) rest

/-- The `replace(/^N\d+\s*/i, '')` step of `isGcodeComment`. -/
def stripLineNumber (l : List Char) : List Char :=
  match l with
  | c :: rest =>
      if (c == 'N' || c == 'n') && !(rest.takeWhile isDigitChar).isEmpty then
        (rest.dropWhile isDigitChar).dropWhile isWsChar
      else l
  | [] => []

/-- Source `isGcodeComment`. -/
def isGcodeComment (command : String) : Bool :=
  let w := stripLineNumber (jsTrim command).data
  match w with
  | ';' :: _ => true
  | '(' :: rest =>
      (match rest.getLast? with
      | some ')' => true
      | _ => false)
  | _ => false

/-- Source `parseM6Command` on a string command: `none` when the command
is a G-code comment or the M6 pattern does not match; `some t` when it
matched, with `t` the parsed tool number (`none` = bare `M6` with no tool
digits). -/
def parseM6Command (command : String) : Option (Option Int) :=
  if isGcodeComment command then none
  else
    match m6Scan none (jsUpper (jsTrim command)).data with
    | none => none
    | some t => some (t.map Int.ofNat)

/-- A command-stream entry.  `silent` models `meta?.silent === true` (the
engine sets `meta: {silent: true}` on hidden expansion lines and `meta:
{}` or no `meta` field otherwise; no claim distinguishes the latter
two). -/
structure CommandEntry where
  command : String
  displayCommand : Option String := none
  isOriginal : Bool := false
  silent : Bool := false
deriving DecidableEq

/-- A raw per-tool offsets object `{x?, y?, z?}`. -/
structure ToolOffsetsRaw where
  x : Option ℚ := none
  y : Option ℚ := none
  z : Option ℚ := none
deriving DecidableEq

/-- An entry of the pre-fetched tool table. -/
structure ToolEntry where
  toolNumber : Int
  offsets : Option ToolOffsetsRaw := none
deriving DecidableEq

/-- The read-only machine context: `context.machineState?.tool` and
`context.tools` (which may be absent or not an array). -/
structure Context where
  machineStateTool : Option Int := none
  tools : Option (List ToolEntry) := none
deriving DecidableEq

/-- Source `getToolOffsets`: pure lookup with zero defaults. -/
def getToolOffsets (toolNumber : Int) (tools : Option (List ToolEntry)) : Coords3 :=
  match tools with
  | none => ⟨0, 0, 0⟩
  | some ts =>
      if toolNumber ≤ 0 then ⟨0, 0, 0⟩
      else
        match ts.find? (fun t => t.toolNumber == toolNumber) with
        | some t =>
            (match t.offsets with
            | some o => ⟨o.x.getD 0, o.y.getD 0, o.z.getD 0⟩
            | none => ⟨0, 0, 0⟩)
        | none => ⟨0, 0, 0⟩

/-- `commands.findIndex(p)` combined with the subsequent
`commands.splice(i, 1, ...expanded)`: the first entry satisfying `p`
together with the prefix before it and the suffix after it. -/
def findSplit (p : α → Bool) : List α → Option (List α × α × List α)
  | [] => none
  | c :: rest =>
      if p c then some ([], c, rest)
      else (findSplit p rest).map (fun x => (c :: x.1, x.2.1, x.2.2))

/-- The expansion map shared by the four command handlers: the first
program line inherits the original's visible (trimmed) text when macro
display is disabled, every later line is displayless and silent unless
macro display is enabled, and no expanded entry is original. -/
def expandLines (program : List String) (origCommand : String)
    (showMacroCommand : Bool) : List CommandEntry :=
  match program with
  | [] => []
  | l :: rest =>
      { command := l
        displayCommand := if showMacroCommand then none else some (jsTrim origCommand)
        isOriginal := false
        silent := false }
        :: rest.map (fun l2 =>
            { command := l2
              displayCommand := none
              isOriginal := false
              silent := !showMacroCommand })

/-- The `findIndex` predicate of `handleTLSCommand`. -/
def isTlsTrigger (c : CommandEntry) : Bool :=
  c.isOriginal && (jsUpper (jsTrim c.command) == "$TLS")

/-- The `findIndex` predicate of `handleHomeCommand`. -/
def isHomeTrigger (c : CommandEntry) : Bool :=
  c.isOriginal && (jsUpper (jsTrim c.command) == "$H")

/-- The `findIndex` predicate of `handlePocket1Command`. -/
def isPocket1Trigger (c : CommandEntry) : Bool :=
  c.isOriginal && (jsUpper (jsTrim c.command) == "$POCKET1")

/-- The `findIndex` predicate of `handleM6Command`. -/
def isM6Trigger (c : CommandEntry) : Bool :=
  c.isOriginal &&
    (match parseM6Command c.command with
    | some (some _) => true
    | _ => false)

/-- Source `handleTLSCommand`. -/
def handleTLSCommand (commands : List CommandEntry) (context : Context)
    (settings : Settings) : List CommandEntry :=
  match findSplit isTlsTrigger commands with
  | none => commands
  | some (pre, tlsCommand, post) =>
      let currentTool := context.machineStateTool.getD 0
      let toolOffsets := getToolOffsets currentTool context.tools
      let program := createToolLengthSetProgram settings toolOffsets
      pre ++ expandLines program tlsCommand.command settings.showMacroCommand ++ post

/-- The home-with-TLS G-code template assembled by `handleHomeCommand`. -/
def homeGcodeTemplate (settings : Settings) (tlsRoutine : List String) : List String :=
  ["$H",
   "#<return_units> = [20 + #<_metric>]",
   "o100 IF [[#<_tool_offset> EQ 0] AND [#<_current_tool> NE 0]]"]
    ++ snippetLines settings.preToolChangeGcode
    ++ ["G21"]
    ++ tlsRoutine
    ++ ["G53 G0 Z" ++ qStr settings.zSafe, "G4 P0", "G53 G0 X0 Y0"]
    ++ snippetLines settings.postToolChangeGcode
    ++ ["o100 ENDIF", "G[#<return_units>]"]

/-- Source `handleHomeCommand`. -/
def handleHomeCommand (commands : List CommandEntry) (context : Context)
    (settings : Settings) : List CommandEntry :=
  match findSplit isHomeTrigger commands with
  | none => commands
  | some (pre, homeCommand, post) =>
      if !settings.performTlsAfterHome then commands
      else
        let currentTool := context.machineStateTool.getD 0
        let toolOffsets := getToolOffsets currentTool context.tools
        let tlsRoutine := createToolLengthSetRoutine settings toolOffsets
        let homeProgram := formatGCode (homeGcodeTemplate settings tlsRoutine)
        pre ++ expandLines homeProgram homeCommand.command settings.showMacroCommand ++ post

/-- Source `handlePocket1Command`. -/
def handlePocket1Command (commands : List CommandEntry) (settings : Settings) :
    List CommandEntry :=
  match findSplit isPocket1Trigger commands with
  | none => commands
  | some (pre, pocket1Command, post) =>
      let program := formatGCode
        ["G53 G21 G90 G0 Z" ++ qStr settings.zSafe,
         "G53 G21 G90 G0 X" ++ qStr settings.pocket1.x ++ " Y" ++ qStr settings.pocket1.y]
      pre ++ expandLines program pocket1Command.command settings.showMacroCommand ++ post

/-- Source `handleM6Command` (the inner re-parse mirrors the source's
re-check of the matched entry). -/
def handleM6Command (commands : List CommandEntry) (context : Context)
    (settings : Settings) : List CommandEntry :=
  match findSplit isM6Trigger commands with
  | none => commands
  | some (pre, m6Command, post) =>
      match parseM6Command m6Command.command with
      | some (some toolNumber) =>
          let currentTool := context.machineStateTool.getD 0
          let toolOffsets := getToolOffsets toolNumber context.tools
          let program := buildToolChangeProgram settings currentTool toolNumber toolOffsets
          pre ++ expandLines program m6Command.command settings.showMacroCommand ++ post
      | _ => commands

/-- Source `onBeforeCommand`: the main entry point, applying the four
handlers in their fixed priority order. -/
def onBeforeCommand (commands : List CommandEntry) (context : Context)
    (settings : Settings) : List CommandEntry :=
  handleM6Command
    (handlePocket1Command
      (handleTLSCommand (handleHomeCommand commands context settings) context settings)
      settings)
    context settings

/-- Characters that `qStr` (number interpolation) can produce. -/
def qChar (c : Char) : Bool :=
  isDigitChar c || c == '-' || c == '/'

/-- The invariants every record produced by the normalizer satisfies
(used to state theorems about "every normalized settings record"). -/
def NormalSettings (s : Settings) : Prop :=
  s.colletSize ∈ ALLOWED_COLLET_SIZES ∧
  s.model ∈ ALLOWED_MODELS ∧
  s.orientation ∈ ORIENTATIONS ∧
  s.direction ∈ DIRECTIONS ∧
  1 ≤ s.pockets ∧ s.pockets ≤ 8 ∧
  0 ≤ s.atcStartDelay ∧ s.atcStartDelay ≤ 10 ∧
  (∀ c, s.tlsAuxOutput = .coolant c → c = "M7" ∨ c = "M8")

/-- The raw configuration of the spec's worked pocket-position example. -/
def c5ExampleRaw : Raw :=
  { pockets := some (.num 6)
    pocket1 := some ⟨some (.num 0), some (.num 0)⟩
    pocketDistance := some (.num 45)
    orientation := some "Y"
    direction := some "Negative" }

/-- A raw configuration supplying an out-of-range spindle speed. -/
def c3CounterRaw : Raw :=
  { loadRpm := some (.num 100) }

/-- No line of the list starts with the character `o` — every
sensor-check conditional opener (`o<n> IF …`) and closer (`o<n> ENDIF`)
does, so this expresses "no sensor-check conditional blocks present". -/
def noOLines (ls : List String) : Prop :=
  ∀ l ∈ ls, l.data.head? ≠ some 'o'

/-! ## Helper lemmas: string data, number rendering, clean lines -/

theorem strData_append (a b : String) : (a ++ b).data = a.data ++ b.data := by
  cases a; cases b; rfl

theorem head?_append_left {α : Type} {a : List α} (b : List α) (h : a ≠ []) :
    (a ++ b).head? = a.head? := by
  cases a with
  | nil => exact absurd rfl h
  | cons x xs => rfl

theorem getLast?_append_right {α : Type} (a : List α) {b : List α} (h : b ≠ []) :
    (a ++ b).getLast? = b.getLast? := by
  induction a with
  | nil => simp
  | cons x xs ih =>
      rw [List.cons_append]
      have hne : xs ++ b ≠ [] := by
        intro hnil
        exact h ((List.append_eq_nil.mp hnil).2)
      cases hxb : xs ++ b with
      | nil => exact absurd hxb hne
      | cons y ys =>
          rw [List.getLast?_cons_cons, ← hxb, ih]

theorem dropWhile_eq_self_of_head {p : Char → Bool} {l : List Char}
    (h : ∀ c, l.head? = some c → p c = false) : l.dropWhile p = l := by
  cases l with
  | nil => rfl
  | cons c cs => simp [List.dropWhile_cons, h c rfl]

theorem jsTrim_eq_self {s : String}
    (h1 : ∀ c, s.data.head? = some c → isWsChar c = false)
    (h2 : ∀ c, s.data.getLast? = some c → isWsChar c = false) : jsTrim s = s := by
  cases s with
  | mk l =>
      show (⟨((l.dropWhile isWsChar).reverse.dropWhile isWsChar).reverse⟩ : String) = ⟨l⟩
      rw [dropWhile_eq_self_of_head h1]
      rw [dropWhile_eq_self_of_head (fun c hc => h2 c (by rwa [List.head?_reverse] at hc))]
      rw [List.reverse_reverse]

theorem digitChar_isDigit {m : Nat} (h : m < 10) :
    isDigitChar (Nat.digitChar m) = true := by
  interval_cases m <;> decide

theorem toDigitsCore_digits :
    ∀ (fuel n : Nat) (ds : List Char), (∀ c ∈ ds, isDigitChar c = true) →
      ∀ c ∈ Nat.toDigitsCore 10 fuel n ds, isDigitChar c = true := by
  intro fuel
  induction fuel with
  | zero => intro n ds h; simpa [Nat.toDigitsCore] using h
  | succ f ih =>
      intro n ds h c hc
      unfold Nat.toDigitsCore at hc
      by_cases h10 : n / 10 = 0
      · rw [if_pos h10] at hc
        rcases List.mem_cons.mp hc with hc | hc
        · subst hc; exact digitChar_isDigit (Nat.mod_lt _ (by omega))
        · exact h c hc
      · rw [if_neg h10] at hc
        refine ih _ _ ?_ c hc
        intro d hd
        rcases List.mem_cons.mp hd with hd | hd
        · subst hd; exact digitChar_isDigit (Nat.mod_lt _ (by omega))
        · exact h d hd

theorem toDigitsCore_ne_nil :
    ∀ (fuel n : Nat) (ds : List Char), ds ≠ [] →
      Nat.toDigitsCore 10 fuel n ds ≠ [] := by
  intro fuel
  induction fuel with
  | zero => intro n ds h; simpa [Nat.toDigitsCore] using h
  | succ f ih =>
      intro n ds h
      unfold Nat.toDigitsCore
      by_cases h10 : n / 10 = 0
      · rw [if_pos h10]; exact List.cons_ne_nil _ _
      · rw [if_neg h10]; exact ih _ _ (List.cons_ne_nil _ _)

theorem natRepr_digits (n : Nat) : ∀ c ∈ (Nat.repr n).data, isDigitChar c = true := by
  intro c hc
  unfold Nat.repr at hc
  exact toDigitsCore_digits _ _ _ (by intro d hd; simp at hd) c hc

theorem natRepr_ne_nil (n : Nat) : (Nat.repr n).data ≠ [] := by
  unfold Nat.repr
  show Nat.toDigitsCore 10 (n + 1) n [] ≠ []
  unfold Nat.toDigitsCore
  by_cases h10 : n / 10 = 0
  · rw [if_pos h10]; exact List.cons_ne_nil _ _
  · rw [if_neg h10]; exact toDigitsCore_ne_nil _ _ _ (List.cons_ne_nil _ _)

theorem intRepr_chars (n : Int) :
    (∀ c ∈ (Int.repr n).data, qChar c = true) ∧ (Int.repr n).data ≠ [] := by
  cases n with
  | ofNat m =>
      refine ⟨fun c hc => ?_, natRepr_ne_nil m⟩
      have := natRepr_digits m c hc
      simp [qChar, this]
  | negSucc m =>
      constructor
      · intro c hc
        rw [show Int.repr (Int.negSucc m) = "-" ++ Nat.repr (m + 1) from rfl] at hc
        rw [strData_append] at hc
        rcases List.mem_append.mp hc with hc | hc
        · simp at hc; subst hc; decide
        · have := natRepr_digits _ c hc
          simp [qChar, this]
      · rw [show Int.repr (Int.negSucc m) = "-" ++ Nat.repr (m + 1) from rfl]
        rw [strData_append]
        simp

theorem qStr_chars (x : ℚ) :
    (∀ c ∈ (qStr x).data, qChar c = true) ∧ (qStr x).data ≠ [] := by
  unfold qStr
  by_cases h : x.den = 1
  · rw [if_pos h]
    exact intRepr_chars x.num
  · rw [if_neg h]
    constructor
    · intro c hc
      rw [strData_append, strData_append] at hc
      rcases List.mem_append.mp hc with hc | hc
      · rcases List.mem_append.mp hc with hc | hc
        · exact (intRepr_chars x.num).1 c hc
        · simp at hc; subst hc; decide
      · simp only [show (toString x.den : String) = Nat.repr x.den from rfl] at hc
        have := natRepr_digits _ c hc
        simp [qChar, this]
    · rw [strData_append, strData_append]
      simp

theorem qChar_not_ws {c : Char} (h : qChar c = true) : isWsChar c = false := by
  simp only [qChar, Bool.or_eq_true, beq_iff_eq] at h
  simp only [isWsChar, Bool.or_eq_false_iff, beq_eq_false_iff_ne]
  rcases h with (h | h) | h
  · simp only [isDigitChar, Bool.and_eq_true, decide_eq_true_eq] at h
    obtain ⟨h1, _⟩ := h
    refine ⟨⟨⟨?_, ?_⟩, ?_⟩, ?_⟩ <;> rintro rfl <;> revert h1 <;> decide
  · subst h; decide
  · subst h; decide

/-! ## Formatter structure lemmas -/

theorem formatGCodeAux_cons (lvl : Nat) (line : String) (rest : List String) :
    formatGCodeAux lvl (line :: rest) =
      (indentStr (emitLevel lvl line) ++ line) :: formatGCodeAux (nextLevel lvl line) rest :=
  rfl

theorem formatGCodeAux_zip (rest : List String) :
    ∀ lvl : Nat, ∃ ks : List Nat,
      formatGCodeAux lvl rest = List.zipWith (fun k l => indentStr k ++ l) ks rest ∧
      ks.length = rest.length := by
  induction rest with
  | nil => intro lvl; exact ⟨[], rfl, rfl⟩
  | cons line rest ih =>
      intro lvl
      obtain ⟨ks, h1, h2⟩ := ih (nextLevel lvl line)
      refine ⟨emitLevel lvl line :: ks, ?_, ?_⟩
      · rw [formatGCodeAux_cons, h1]
        rfl
      · simp [h2]

theorem indentStr_zero_append (l : String) : indentStr 0 ++ l = l := by
  cases l; rfl

theorem emitLevel_zero (line : String) : emitLevel 0 line = 0 := by
  unfold emitLevel
  dsimp only
  split <;> rfl

theorem formatGCode_cons_clean {ls : List String} {line : String} {rest : List String}
    (h : cleanLines ls = line :: rest) :
    formatGCode ls = line :: formatGCodeAux (nextLevel 0 line) rest := by
  unfold formatGCode
  rw [h, formatGCodeAux_cons, emitLevel_zero, indentStr_zero_append]

/-! ## C9: formatter safety -/

/-- **C9.**  For every input (given by its line list), every line returned
by `formatGCode` is the trimmed input line preceded by a non-negative
number of two-space indent units — the indent counter is a natural number
whose close-keyword decrement is clamped at zero — and line order and
content (modulo surrounding whitespace and dropped blank lines) are
preserved, including for malformed input with more `ENDIF`s than `IF`s. -/
theorem formatGCode_no_negative_indent (ls : List String) :
    ∃ ks : List Nat,
      formatGCode ls = List.zipWith (fun k l => indentStr k ++ l) ks (cleanLines ls) ∧
      ks.length = (cleanLines ls).length ∧
      (formatGCode ls).length = (cleanLines ls).length := by
  obtain ⟨ks, h1, h2⟩ := formatGCodeAux_zip (cleanLines ls) 0
  refine ⟨ks, h1, h2, ?_⟩
  rw [formatGCode] at *
  rw [h1, List.length_zipWith, h2, Nat.min_self]

/-! ## C5: pocket-position geometry -/

/-- **C5.**  For every settings record and integer tool number,
`calculatePocketPosition` returns `pocket1` unchanged when `toolNum ≤ 0`
and otherwise offsets `pocket1` by `(toolNum-1)*pocketDistance`, negated
for direction `Negative`, on the Y axis for orientation `Y` and on the X
axis otherwise; in particular the spec's worked example
(`pockets 6, pocket1 (0,0), distance 45, orientation Y, direction
Negative`, tool 3) yields `(0, -90)`. -/
theorem calculatePocketPosition_spec :
    (∀ (s : Settings) (toolNum : Int),
        calculatePocketPosition s toolNum =
          if toolNum ≤ 0 then s.pocket1
          else if s.orientation = "Y" then
            ⟨s.pocket1.x, s.pocket1.y + ((toolNum - 1 : Int) : ℚ) * s.pocketDistance *
              (if s.direction = "Negative" then -1 else 1)⟩
          else
            ⟨s.pocket1.x + ((toolNum - 1 : Int) : ℚ) * s.pocketDistance *
              (if s.direction = "Negative" then -1 else 1), s.pocket1.y⟩) ∧
    calculatePocketPosition (buildInitialConfig c5ExampleRaw) 3 = ⟨0, -90⟩ := by
  constructor
  · intro s toolNum
    rfl
  · have hx : (buildInitialConfig c5ExampleRaw).pocket1.x = 0 := rfl
    have hy : (buildInitialConfig c5ExampleRaw).pocket1.y = 0 := rfl
    have hd : (buildInitialConfig c5ExampleRaw).pocketDistance = 45 := rfl
    have hdir : (buildInitialConfig c5ExampleRaw).direction = "Negative" := rfl
    have hori : (buildInitialConfig c5ExampleRaw).orientation = "Y" := rfl
    unfold calculatePocketPosition
    rw [if_neg (by omega : ¬(3 : Int) ≤ 0)]
    dsimp only
    rw [if_pos hdir, if_pos hori, Coords.mk.injEq, hx, hy, hd]
    norm_num

/-! ## Normalizer helper lemmas -/

theorem ifPresent_toFinite (v : Option JVal) (d : ℚ) :
    (if isPresent v then toFiniteNumber v d else d) = (jsParseFloat v).getD d := by
  rcases v with _ | (q | s | b | _) <;> rfl

theorem clampPockets_bounds (v : Option JVal) :
    1 ≤ clampPockets v ∧ clampPockets v ≤ 8 := by
  unfold clampPockets
  rcases h : jsParseInt v with _ | p <;> simp only [h]
  · omega
  · rw [min_def, max_def]
    constructor <;> split_ifs <;> omega

theorem clampAtcStartDelay_bounds (v : Option JVal) :
    0 ≤ clampAtcStartDelay v ∧ clampAtcStartDelay v ≤ 10 := by
  unfold clampAtcStartDelay
  rcases h : jsParseInt v with _ | p <;> simp only [h]
  · omega
  · rw [min_def, max_def]
    constructor <;> split_ifs <;> omega

theorem ratTrunc_intCast (p : ℤ) : ratTrunc ((p : ℤ) : ℚ) = p := by
  have hfl : ∀ z : ℤ, Rat.floor ((z : ℚ)) = z := by
    intro z
    have h : Rat.floor ((z : ℚ)) = ⌊((z : ℚ))⌋ := rfl
    rw [h, Int.floor_intCast]
  unfold ratTrunc
  by_cases h : ((p : ℚ)) < 0
  · rw [if_pos h]
    have h2 : (-(p : ℚ)) = (((-p : ℤ) : ℚ)) := by push_cast; ring
    rw [h2, hfl]
    ring
  · rw [if_neg h, hfl]

theorem clampPockets_fixed {p : ℤ} (h1 : 1 ≤ p) (h2 : p ≤ 8) :
    clampPockets (some (.num ((p : ℤ) : ℚ))) = p := by
  unfold clampPockets
  have h : jsParseInt (some (.num ((p : ℤ) : ℚ))) = some (ratTrunc ((p : ℤ) : ℚ)) := rfl
  rw [h, ratTrunc_intCast]
  dsimp only
  rw [min_def, max_def]
  split_ifs <;> omega

theorem clampAtcStartDelay_fixed {p : ℤ} (h1 : 0 ≤ p) (h2 : p ≤ 10) :
    clampAtcStartDelay (some (.num ((p : ℤ) : ℚ))) = p := by
  unfold clampAtcStartDelay
  have h : jsParseInt (some (.num ((p : ℤ) : ℚ))) = some (ratTrunc ((p : ℤ) : ℚ)) := rfl
  rw [h, ratTrunc_intCast]
  dsimp only
  rw [min_def, max_def]
  split_ifs <;> omega

theorem sanitizeColletSize_mem (v : Option String) :
    sanitizeColletSize v ∈ ALLOWED_COLLET_SIZES := by
  unfold sanitizeColletSize
  rcases v with _ | s
  · decide
  · dsimp only
    by_cases h : ALLOWED_COLLET_SIZES.contains s
    · rw [if_pos h]; simpa using h
    · rw [if_neg h]; decide

theorem sanitizeColletSize_of_mem {a : String} (h : a ∈ ALLOWED_COLLET_SIZES) :
    sanitizeColletSize (some a) = a := by
  unfold sanitizeColletSize
  dsimp only
  rw [if_pos (by simpa using h)]

theorem sanitizeModel_mem (v : Option String) : sanitizeModel v ∈ ALLOWED_MODELS := by
  unfold sanitizeModel
  rcases v with _ | s
  · decide
  · dsimp only
    by_cases h : ALLOWED_MODELS.contains s
    · rw [if_pos h]; simpa using h
    · rw [if_neg h]; decide

theorem sanitizeModel_of_mem {a : String} (h : a ∈ ALLOWED_MODELS) :
    sanitizeModel (some a) = a := by
  unfold sanitizeModel
  dsimp only
  rw [if_pos (by simpa using h)]

theorem sanitizeOrientation_mem (v : Option String) :
    sanitizeOrientation v ∈ ORIENTATIONS := by
  unfold sanitizeOrientation
  rcases v with _ | s
  · decide
  · dsimp only
    by_cases h : ORIENTATIONS.contains s
    · rw [if_pos h]; simpa using h
    · rw [if_neg h]; decide

theorem sanitizeOrientation_of_mem {a : String} (h : a ∈ ORIENTATIONS) :
    sanitizeOrientation (some a) = a := by
  unfold sanitizeOrientation
  dsimp only
  rw [if_pos (by simpa using h)]

theorem sanitizeDirection_mem (v : Option String) : sanitizeDirection v ∈ DIRECTIONS := by
  unfold sanitizeDirection
  rcases v with _ | s
  · decide
  · dsimp only
    by_cases h : DIRECTIONS.contains s
    · rw [if_pos h]; simpa using h
    · rw [if_neg h]; decide

theorem sanitizeDirection_of_mem {a : String} (h : a ∈ DIRECTIONS) :
    sanitizeDirection (some a) = a := by
  unfold sanitizeDirection
  dsimp only
  rw [if_pos (by simpa using h)]

/-- Every record the normalizer produces satisfies the `NormalSettings`
invariants. -/
theorem buildInitialConfig_normal (raw : Raw) :
    NormalSettings (buildInitialConfig raw) := by
  unfold NormalSettings
  refine ⟨sanitizeColletSize_mem _, sanitizeModel_mem _, sanitizeOrientation_mem _,
    sanitizeDirection_mem _, (clampPockets_bounds _).1, (clampPockets_bounds _).2,
    (clampAtcStartDelay_bounds _).1, (clampAtcStartDelay_bounds _).2, ?_⟩
  intro c h
  change (if raw.tlsAuxOutput = some (.str "M7") then TlsOut.coolant "M7"
    else if raw.tlsAuxOutput = some (.str "M8") then TlsOut.coolant "M8"
    else TlsOut.pin (toFiniteNumber raw.tlsAuxOutput (-1))) = TlsOut.coolant c at h
  split at h
  · injection h with h2
    exact Or.inl h2.symm
  · split at h
    · injection h with h2
      exact Or.inr h2.symm
    · exact absurd h (by simp)

/-- **C3 counterexample.**  The raw input `{loadRpm: 100}` normalizes to a
record whose `loadRpm` is 100, outside the documented range `[500, 2000]`:
`buildInitialConfig` parses the spindle speeds with fallback semantics but
never clamps them (the source's `clampRpm` is dead code). -/
theorem buildInitialConfig_rpm_unclamped :
    (buildInitialConfig c3CounterRaw).loadRpm = 100 ∧
    ¬(500 ≤ (buildInitialConfig c3CounterRaw).loadRpm ∧
      (buildInitialConfig c3CounterRaw).loadRpm ≤ 2000) := by
  constructor
  · rfl
  · rintro ⟨h, -⟩
    have h100 : (buildInitialConfig c3CounterRaw).loadRpm = 100 := rfl
    rw [h100] at h
    norm_num at h

/-- **C3 (amended).**  For every raw input, `pockets` is an integer in
`[1, 8]` and `atcStartDelay` an integer in `[0, 10]`; `loadRpm` and
`unloadRpm` are parsed with `NaN`-to-fallback semantics — the supplied
finite numeric value is used unchanged (no clamping to `[500, 2000]`),
and the collet-size default, which does lie in `[500, 2000]`, is used
when the field is absent or non-numeric. -/
theorem buildInitialConfig_bounds (raw : Raw) :
    (1 ≤ (buildInitialConfig raw).pockets ∧ (buildInitialConfig raw).pockets ≤ 8) ∧
    (0 ≤ (buildInitialConfig raw).atcStartDelay ∧
      (buildInitialConfig raw).atcStartDelay ≤ 10) ∧
    ((buildInitialConfig raw).loadRpm =
      (jsParseFloat raw.loadRpm).getD (getDefaultLoadRpm (buildInitialConfig raw).colletSize)) ∧
    ((buildInitialConfig raw).unloadRpm =
      (jsParseFloat raw.unloadRpm).getD
        (getDefaultUnloadRpm (buildInitialConfig raw).colletSize)) ∧
    (500 ≤ getDefaultLoadRpm (buildInitialConfig raw).colletSize ∧
      getDefaultLoadRpm (buildInitialConfig raw).colletSize ≤ 2000) ∧
    (500 ≤ getDefaultUnloadRpm (buildInitialConfig raw).colletSize ∧
      getDefaultUnloadRpm (buildInitialConfig raw).colletSize ≤ 2000) := by
  refine ⟨clampPockets_bounds _, clampAtcStartDelay_bounds _,
    ifPresent_toFinite raw.loadRpm _, ifPresent_toFinite raw.unloadRpm _, ?_, ?_⟩
  · unfold getDefaultLoadRpm
    split <;> norm_num
  · unfold getDefaultUnloadRpm
    split <;> norm_num

/-! ## C7: normalizer idempotence -/

/-- A settings record satisfying the normalizer's invariants is a fixed
point of the normalizer. -/
theorem buildInitialConfig_fixed (s : Settings) (hs : NormalSettings s) :
    buildInitialConfig (settingsToRaw s) = s := by
  unfold NormalSettings at hs
  obtain ⟨h1, h2, h3, h4, h5, h6, h7, h8, h9⟩ := hs
  obtain ⟨cs, pk, md, ori, dir, smc, ptl, sas, ap, del, p1, ts, mt, pd, ze, zs, zso, zr,
    zps, z1, z2, lr, ur, ef, sd, sf, tsn, plg, pug, prg, pog, aeg, tao⟩ := s
  simp only at h1 h2 h3 h4 h5 h6 h7 h8 h9
  simp only [buildInitialConfig, settingsToRaw, Settings.mk.injEq]
  refine ⟨?_, ?_, ?_, ?_, ?_, ?_, ?_, ?_, ?_, ?_, ?_, ?_, ?_, ?_, ?_, ?_, ?_, ?_, ?_,
    ?_, ?_, ?_, ?_, ?_, ?_, ?_, ?_, ?_, ?_, ?_, ?_, ?_, ?_⟩ <;> try trivial
  · exact sanitizeColletSize_of_mem h1
  · exact clampPockets_fixed h5 h6
  · exact sanitizeModel_of_mem h2
  · exact sanitizeOrientation_of_mem h3
  · exact sanitizeDirection_of_mem h4
  · exact clampAtcStartDelay_fixed h7 h8
  · rcases tao with c | q
    · rcases h9 c rfl with rfl | rfl
      · rw [if_pos rfl]
      · rw [if_neg (by decide), if_pos rfl]
    · rw [if_neg (by simp), if_neg (by simp)]
      rfl

/-- **C7.**  The settings normalizer is idempotent: re-normalizing the
record produced by `buildInitialConfig` (re-presented as a raw input by
the identity embedding `settingsToRaw`) returns it unchanged, for every
raw input object — every enumeration fallback, numeric clamp,
collet-derived default, and the `tlsAuxOutput` encoding are fixed points
on already-normalized records. -/
theorem buildInitialConfig_idempotent (raw : Raw) :
    buildInitialConfig (settingsToRaw (buildInitialConfig raw)) = buildInitialConfig raw :=
  buildInitialConfig_fixed _ (buildInitialConfig_normal raw)

/-! ## Line-head analysis -/

theorem str_head_append {a : String} (t : String) {c : Char}
    (h : a.data.head? = some c) : (a ++ t).data.head? = some c := by
  rw [strData_append]
  rw [head?_append_left _ (by intro hnil; rw [hnil] at h; simp at h)]
  exact h

theorem noOLines_nil : noOLines [] := by
  intro l h
  simp at h

theorem noOLines_append {a b : List String} (ha : noOLines a) (hb : noOLines b) :
    noOLines (a ++ b) := by
  intro l hl
  rcases List.mem_append.mp hl with h | h
  · exact ha l h
  · exact hb l h

theorem noOLines_cons {l : String} {ls : List String}
    (h : l.data.head? ≠ some 'o') (hs : noOLines ls) : noOLines (l :: ls) := by
  intro x hx
  rcases List.mem_cons.mp hx with rfl | hx
  · exact h
  · exact hs x hx

theorem noOLines_singleton {l : String} (h : l.data.head? ≠ some 'o') :
    noOLines [l] :=
  noOLines_cons h noOLines_nil

/-- A line that starts with a nonempty literal whose first character is
not `o` does not start with `o`. -/
theorem line_ne_o {a : String} (t : String) (hne : a.data ≠ [])
    (h : a.data.head? ≠ some 'o') : (a ++ t).data.head? ≠ some 'o' := by
  rw [strData_append, head?_append_left _ hne]
  exact h

theorem data_append_ne_nil {a : String} (t : String) (hne : a.data ≠ []) :
    (a ++ t).data ≠ [] := by
  rw [strData_append]
  simp [hne]

theorem line_ne_o2 {a : String} (t u : String) (hne : a.data ≠ [])
    (h : a.data.head? ≠ some 'o') : ((a ++ t) ++ u).data.head? ≠ some 'o' :=
  line_ne_o u (data_append_ne_nil t hne) (line_ne_o t hne h)

theorem line_ne_o3 {a : String} (t u v : String) (hne : a.data ≠ [])
    (h : a.data.head? ≠ some 'o') : (((a ++ t) ++ u) ++ v).data.head? ≠ some 'o' :=
  line_ne_o v (data_append_ne_nil u (data_append_ne_nil t hne)) (line_ne_o2 t u hne h)

/-- The Manual-Fallback routine has no conditional-block lines. -/
theorem noOLines_fallback (s : Settings) : noOLines (createManualToolFallback s) := by
  unfold createManualToolFallback
  exact noOLines_cons (line_ne_o _ (by decide) (by decide))
    (noOLines_cons (line_ne_o3 _ _ _ (by decide) (by decide))
      (noOLines_singleton (by decide)))

/-- The tool-length-setter routine has no conditional-block lines (for a
record whose coolant token is `M7`/`M8`, as the normalizer guarantees). -/
theorem noOLines_tls (s : Settings)
    (haux : ∀ c, s.tlsAuxOutput = .coolant c → c = "M7" ∨ c = "M8")
    (offs : Coords3) : noOLines (createToolLengthSetRoutine s offs) := by
  unfold createToolLengthSetRoutine
  dsimp only
  refine noOLines_append (noOLines_append (noOLines_append (noOLines_append
    (noOLines_append ?_ ?_) ?_) ?_) ?_) ?_
  · exact noOLines_cons (line_ne_o _ (by decide) (by decide))
      (noOLines_cons (line_ne_o3 _ _ _ (by decide) (by decide))
        (noOLines_cons (line_ne_o _ (by decide) (by decide)) noOLines_nil))
  · split
    · exact noOLines_cons (line_ne_o _ (by decide) (by decide))
        (noOLines_singleton (by decide))
    · exact noOLines_nil
  · rcases h : s.tlsAuxOutput with c | q <;> dsimp only
    · split
      · rcases haux c h with rfl | rfl
        · exact noOLines_cons (by decide) (noOLines_cons (by decide)
            (noOLines_singleton (by decide)))
        · exact noOLines_cons (by decide) (noOLines_cons (by decide)
            (noOLines_singleton (by decide)))
      · exact noOLines_nil
    · split
      · exact noOLines_cons (by decide) (noOLines_cons
          (line_ne_o _ (by decide) (by decide)) (noOLines_singleton (by decide)))
      · exact noOLines_nil
  · exact noOLines_cons (by decide) (noOLines_cons
      (line_ne_o3 _ _ _ (by decide) (by decide)) (noOLines_cons (by decide)
        (noOLines_cons (by decide) (noOLines_cons (by decide)
          (noOLines_singleton (by decide))))))
  · rcases h : s.tlsAuxOutput with c | q <;> dsimp only
    · split
      · exact noOLines_cons (by decide) (noOLines_cons (by decide)
          (noOLines_singleton (by decide)))
      · exact noOLines_nil
    · split
      · exact noOLines_cons (by decide) (noOLines_cons
          (line_ne_o _ (by decide) (by decide)) (noOLines_singleton (by decide)))
      · exact noOLines_nil
  · exact noOLines_cons (by decide) (noOLines_cons (by decide)
      (noOLines_cons (by decide) (noOLines_cons (by decide)
        (noOLines_cons (by decide) (noOLines_singleton (by decide))))))

/-! ## C4: out-of-range tools route to Manual-Fallback -/

/-- **C4 counterexample.**  The reserved probe tool 99 does *not* always
route to Manual-Fallback: with a nonempty `probeUnloadGcode` snippet
(raw input `{probeUnloadGcode: "G0 X1"}`), the unload section for tool 99
routes through the snippet and contains no `M0` programmed pause — hence
not the Manual-Fallback routine — even though 99 exceeds the pocket
count. -/
theorem c4_probe_tool_counterexample :
    (buildInitialConfig { probeUnloadGcode := some "G0 X1" }).pockets < 99 ∧
    "M0" ∉ buildUnloadTool (buildInitialConfig { probeUnloadGcode := some "G0 X1" })
      99 ⟨0, 0⟩ := by
  constructor
  · decide
  · decide

/-- **C4 (amended).**  For every normalized settings record and tool
numbers beyond the pocket range, the load and unload sections contain the
Manual-Fallback routine and no sensor-check conditional blocks (no line
starts a `o<n> …` block) — *except* that tool 99 takes the probe branch:
the statement covers tool 99 only when the corresponding probe G-code
snippet is empty (with a nonempty snippet, 99 routes through the snippet
instead, as the counterexample shows). -/
theorem manual_fallback_routing (s : Settings) (hs : NormalSettings s)
    (t ct : Int) (pos pos2 : Coords) (offs : Coords3)
    (hlt : s.pockets < t) (ht99 : t = 99 → jsTrim s.probeLoadGcode = "")
    (hct : s.pockets < ct) (hct99 : ct = 99 → jsTrim s.probeUnloadGcode = "") :
    (createManualToolFallback s <:+:
      buildLoadTool s t pos (createToolLengthSetRoutine s offs)) ∧
    noOLines (buildLoadTool s t pos (createToolLengthSetRoutine s offs)) ∧
    (createManualToolFallback s <:+: buildUnloadTool s ct pos2) ∧
    noOLines (buildUnloadTool s ct pos2) := by
  unfold NormalSettings at hs
  obtain ⟨-, -, -, -, hp1, -, -, -, haux⟩ := hs
  have ht0 : ¬t = 0 := by omega
  have hct0 : ¬ct = 0 := by omega
  refine ⟨?_, ?_, ?_, ?_⟩
  · unfold buildLoadTool
    rw [if_neg ht0]
    by_cases h99 : t = PROBE_TOOL_NUMBER
    · rw [if_pos h99, if_neg (show ¬(jsTrim s.probeLoadGcode ≠ "") by
        simp [ht99 h99])]
      exact ⟨["G53 G0 Z" ++ qStr s.zSafe, "G4 P0",
        "(MSG, PLUGIN_RAPIDCHANGEATC:MANUAL_LOAD_PROBE)"],
        ["M61 Q" ++ toString PROBE_TOOL_NUMBER] ++ createToolLengthSetRoutine s offs,
        by simp⟩
    · rw [if_neg h99, if_neg (show ¬t ≤ s.pockets by omega)]
      exact ⟨["G53 G0 Z" ++ qStr s.zSafe, "G4 P0",
        "(MSG, PLUGIN_RAPIDCHANGEATC:MANUAL_LOAD_TOOL)"],
        ["M61 Q" ++ toString t] ++ createToolLengthSetRoutine s offs,
        by simp⟩
  · unfold buildLoadTool
    rw [if_neg ht0]
    by_cases h99 : t = PROBE_TOOL_NUMBER
    · rw [if_pos h99, if_neg (show ¬(jsTrim s.probeLoadGcode ≠ "") by
        simp [ht99 h99])]
      refine noOLines_append (noOLines_append (noOLines_append ?_
        (noOLines_fallback s)) ?_) (noOLines_tls s haux offs)
      · exact noOLines_cons (line_ne_o _ (by decide) (by decide))
          (noOLines_cons (by decide) (noOLines_singleton (by decide)))
      · exact noOLines_singleton (line_ne_o _ (by decide) (by decide))
    · rw [if_neg h99, if_neg (show ¬t ≤ s.pockets by omega)]
      refine noOLines_append (noOLines_append (noOLines_append ?_
        (noOLines_fallback s)) ?_) (noOLines_tls s haux offs)
      · exact noOLines_cons (line_ne_o _ (by decide) (by decide))
          (noOLines_cons (by decide) (noOLines_singleton (by decide)))
      · exact noOLines_singleton (line_ne_o _ (by decide) (by decide))
  · unfold buildUnloadTool
    rw [if_neg hct0]
    by_cases h99 : ct = PROBE_TOOL_NUMBER
    · rw [if_pos h99, if_neg (show ¬(jsTrim s.probeUnloadGcode ≠ "") by
        simp [hct99 h99])]
      exact ⟨["G53 G0 Z" ++ qStr s.zSafe, "G4 P0",
        "(MSG, PLUGIN_RAPIDCHANGEATC:MANUAL_UNLOAD_PROBE)"], ["M61 Q0"], by simp⟩
    · rw [if_neg h99, if_pos hct]
      exact ⟨["G53 G0 Z" ++ qStr s.zSafe, "G4 P0",
        "(MSG, PLUGIN_RAPIDCHANGEATC:MANUAL_UNLOAD_TOOL)"], ["M61 Q0"], by simp⟩
  · unfold buildUnloadTool
    rw [if_neg hct0]
    by_cases h99 : ct = PROBE_TOOL_NUMBER
    · rw [if_pos h99, if_neg (show ¬(jsTrim s.probeUnloadGcode ≠ "") by
        simp [hct99 h99])]
      refine noOLines_append (noOLines_append ?_ (noOLines_fallback s)) ?_
      · exact noOLines_cons (line_ne_o _ (by decide) (by decide))
          (noOLines_cons (by decide) (noOLines_singleton (by decide)))
      · exact noOLines_singleton (by decide)
    · rw [if_neg h99, if_pos hct]
      refine noOLines_append (noOLines_append ?_ (noOLines_fallback s)) ?_
      · exact noOLines_cons (line_ne_o _ (by decide) (by decide))
          (noOLines_cons (by decide) (noOLines_singleton (by decide)))
      · exact noOLines_singleton (by decide)

/-- Witness for the amended C4 theorem: the default configuration
(6 pockets), load tool 9, unload tool 99 with the default empty probe
snippet. -/
theorem manual_fallback_routing_witness :
    NormalSettings (buildInitialConfig {}) ∧
    (buildInitialConfig {}).pockets < 9 ∧
    (buildInitialConfig {}).pockets < 99 ∧
    ((createManualToolFallback (buildInitialConfig {}) <:+:
      buildLoadTool (buildInitialConfig {}) 9 ⟨0, 0⟩
        (createToolLengthSetRoutine (buildInitialConfig {}) ⟨0, 0, 0⟩)) ∧
    noOLines (buildLoadTool (buildInitialConfig {}) 9 ⟨0, 0⟩
        (createToolLengthSetRoutine (buildInitialConfig {}) ⟨0, 0, 0⟩)) ∧
    (createManualToolFallback (buildInitialConfig {}) <:+:
      buildUnloadTool (buildInitialConfig {}) 99 ⟨0, 0⟩) ∧
    noOLines (buildUnloadTool (buildInitialConfig {}) 99 ⟨0, 0⟩)) :=
  ⟨buildInitialConfig_normal {}, by decide, by decide,
    manual_fallback_routing (buildInitialConfig {}) (buildInitialConfig_normal {})
      9 99 ⟨0, 0⟩ ⟨0, 0⟩ ⟨0, 0, 0⟩ (by decide) (fun h => absurd h (by decide))
      (by decide) (fun _ => rfl)⟩

/-! ## Substring and prefix-discrimination lemmas -/

theorem listContains_nil_pat (l : List Char) : listContains [] l = true := by
  cases l <;> simp [listContains]

theorem isPrefixOf_append {pat l : List Char} (m : List Char)
    (h : pat.isPrefixOf l = true) : pat.isPrefixOf (l ++ m) = true := by
  rw [List.isPrefixOf_iff_prefix] at *
  exact h.trans (l.prefix_append m)

theorem listContains_append_left {pat l : List Char} (m : List Char)
    (h : listContains pat l = true) : listContains pat (l ++ m) = true := by
  induction l with
  | nil =>
      simp only [listContains, List.isEmpty_iff] at h
      subst h
      exact listContains_nil_pat m
  | cons c rest ih =>
      simp only [listContains, Bool.or_eq_true] at h ⊢
      rcases h with h | h
      · exact Or.inl (isPrefixOf_append m h)
      · exact Or.inr (ih h)

theorem listContains_append_right {pat m : List Char} (l : List Char)
    (h : listContains pat m = true) : listContains pat (l ++ m) = true := by
  induction l with
  | nil => simpa using h
  | cons c rest ih =>
      simp only [List.cons_append, listContains, Bool.or_eq_true]
      exact Or.inr ih

theorem strContains_append_left {a : String} {pat : String} (b : String)
    (h : strContains a pat = true) : strContains (a ++ b) pat = true := by
  unfold strContains at *
  rw [strData_append]
  exact listContains_append_left _ h

theorem strContains_append_right {b : String} {pat : String} (a : String)
    (h : strContains b pat = true) : strContains (a ++ b) pat = true := by
  unfold strContains at *
  rw [strData_append]
  exact listContains_append_right _ h

theorem head_app {a : String} (t : String) (hne : a.data ≠ []) :
    (a ++ t).data.head? = a.data.head? := by
  rw [strData_append, head?_append_left _ hne]

theorem ne_of_take2 {a b : String} (h : a.data.take 2 ≠ b.data.take 2) : a ≠ b :=
  fun hh => h (by rw [hh])

theorem take2_append {a : String} (t : String) (h : 2 ≤ a.data.length) :
    (a ++ t).data.take 2 = a.data.take 2 := by
  rw [strData_append, List.take_append_of_le_length h]

theorem two_le_data_append {a : String} (t : String) (h : 2 ≤ a.data.length) :
    2 ≤ (a ++ t).data.length := by
  rw [strData_append, List.length_append]
  omega

theorem beq_ff_of_take2 {a b : String} (h : a.data.take 2 ≠ b.data.take 2) :
    (a == b) = false :=
  beq_eq_false_iff_ne.mpr (ne_of_take2 h)

theorem ne_sym_of_take2 {a b : String} (h : a.data.take 2 ≠ b.data.take 2) : ¬b = a :=
  fun hh => ne_of_take2 h hh.symm

/-- Every line of a sensor-check condition either starts `M66 …` (the
auxiliary-port sample instruction) or starts with `o` (the conditional
opener). -/
theorem cond_lines_shape (sensor : String) (v n : Nat) :
    ∀ l ∈ getSensorCheckCondition sensor v n,
      l.data.take 2 = ['M', '6'] ∨ l.data.head? = some 'o' := by
  have h0 : ("o" : String).data ≠ [] := by decide
  have h1 : ∀ m : Nat, ("o" ++ toString m).data ≠ [] :=
    fun m => data_append_ne_nil (toString m) h0
  have hoHead : ∀ (m : Nat) (t : String), (("o" ++ toString m) ++ t).data.head? = some 'o' := by
    intro m t
    rw [head_app _ (h1 m), head_app _ h0]
    rfl
  unfold getSensorCheckCondition
  rcases hm : auxPortMatch sensor with _ | port <;> dsimp only
  · split
    · split <;> intro l hl <;> simp only [List.mem_cons, List.not_mem_nil, or_false] at hl <;> subst hl <;>
        exact Or.inr (hoHead _ _)
    · intro l hl
      simp only [List.mem_cons, List.not_mem_nil, or_false] at hl
      subst hl
      refine Or.inr ?_
      have h2 := data_append_ne_nil " IF [#<" (h1 n)
      have h3 := data_append_ne_nil sensor h2
      have h4 := data_append_ne_nil "> EQ " h3
      have h5 := data_append_ne_nil (toString v) h4
      rw [head_app _ h5, head_app _ h4, head_app _ h3, head_app _ h2, head_app _ (h1 n),
        head_app _ h0]
      rfl
  · split <;> intro l hl <;> simp only [List.mem_cons, List.not_mem_nil, or_false] at hl <;>
      rcases hl with rfl | rfl
    · exact Or.inl (by
        rw [take2_append _ (two_le_data_append _ (by decide)),
          take2_append _ (by decide)]
        decide)
    · exact Or.inr (hoHead _ _)
    · exact Or.inl (by
        rw [take2_append _ (two_le_data_append _ (by decide)),
          take2_append _ (by decide)]
        decide)
    · exact Or.inr (hoHead _ _)

/-- Every sensor-check condition line that starts with `o` is an `IF`
opener (contains `" IF "`). -/
theorem cond_o_line_if (sensor : String) (v n : Nat) :
    ∀ l ∈ getSensorCheckCondition sensor v n,
      l.data.head? = some 'o' → strContains l " IF " = true := by
  unfold getSensorCheckCondition
  rcases hm : auxPortMatch sensor with _ | port <;> dsimp only
  · split
    · split <;> intro l hl _ <;> simp only [List.mem_cons, List.not_mem_nil, or_false] at hl <;> subst hl <;>
        exact strContains_append_right _ (by decide)
    · intro l hl _
      simp only [List.mem_cons, List.not_mem_nil, or_false] at hl
      subst hl
      refine strContains_append_left _ (strContains_append_left _
        (strContains_append_left _ (strContains_append_left _
          (strContains_append_right _ (by decide)))))
  · split <;> intro l hl hhead <;> simp only [List.mem_cons, List.not_mem_nil, or_false] at hl <;>
      rcases hl with rfl | rfl
    · exact absurd hhead (by
        rw [head_app _ (data_append_ne_nil _ (by decide)), head_app _ (by decide)]
        decide)
    · exact strContains_append_right _ (by decide)
    · exact absurd hhead (by
        rw [head_app _ (data_append_ne_nil _ (by decide)), head_app _ (by decide)]
        decide)
    · exact strContains_append_right _ (by decide)

/-- The single unload cycle has no conditional-block lines. -/
theorem noOLines_unload (s : Settings) : noOLines (createToolUnload s) := by
  unfold createToolUnload
  dsimp only
  refine noOLines_append (noOLines_append (noOLines_append (noOLines_append
    ?_ ?_) ?_) ?_) ?_
  · exact noOLines_singleton (line_ne_o _ (by decide) (by decide))
  · split
    · exact noOLines_nil
    · exact noOLines_singleton (by decide)
  · exact noOLines_cons (line_ne_o _ (by decide) (by decide))
      (noOLines_cons (line_ne_o3 _ _ _ (by decide) (by decide))
        (noOLines_cons (line_ne_o3 _ _ _ (by decide) (by decide)) noOLines_nil))
  · split
    · exact noOLines_nil
    · exact noOLines_singleton (by decide)
  · exact noOLines_cons (by decide) (noOLines_cons
      (line_ne_o _ (by decide) (by decide)) (noOLines_singleton (by decide)))

/-! ## C2: single-retry unload policy -/

theorem count_cond_zero {y : String} (sensor : String) (v n : Nat)
    (hy2 : y.data.take 2 ≠ ['M', '6']) (hyh : y.data.head? ≠ some 'o') :
    (getSensorCheckCondition sensor v n).count y = 0 := by
  rw [List.count_eq_zero]
  intro hmem
  rcases cond_lines_shape sensor v n y hmem with h | h
  · exact hy2 h
  · exact hyh h

/-- Occurrence count of any line whose two leading characters differ from
each line shape of the single unload cycle. -/
theorem count_unload_zero (s : Settings) {y : String}
    (hG5 : y.data.take 2 ≠ ['G', '5']) (hG6 : y.data.take 2 ≠ ['G', '6'])
    (hM4 : y.data.take 2 ≠ ['M', '4']) (hM5 : y.data.take 2 ≠ ['M', '5'])
    (hG4 : y.data.take 2 ≠ ['G', '4']) :
    (createToolUnload s).count y = 0 := by
  have e1 : ¬("G53 G0 Z" ++ qStr (s.zEngagement + s.zSpinOff) = y) :=
    ne_sym_of_take2 (by rw [take2_append _ (by decide)]; exact hG5)
  have e2 : ¬(("G65P6" : String) = y) := ne_sym_of_take2 hG6
  have e3 : ¬("M4 S" ++ qStr s.unloadRpm = y) :=
    ne_sym_of_take2 (by rw [take2_append _ (by decide)]; exact hM4)
  have e4 : ¬("G53 G1 Z" ++ qStr s.zEngagement ++ " F" ++ qStr s.engageFeedrate = y) :=
    ne_sym_of_take2 (by
      rw [take2_append _ (two_le_data_append _ (two_le_data_append _ (by decide))),
        take2_append _ (two_le_data_append _ (by decide)), take2_append _ (by decide)]
      exact hG5)
  have e5 : ¬("G53 G1 Z" ++ qStr (s.zEngagement + s.zRetreat) ++ " F"
      ++ qStr s.engageFeedrate = y) :=
    ne_sym_of_take2 (by
      rw [take2_append _ (two_le_data_append _ (two_le_data_append _ (by decide))),
        take2_append _ (two_le_data_append _ (by decide)), take2_append _ (by decide)]
      exact hG5)
  have e6 : ¬(("M5" : String) = y) := ne_sym_of_take2 hM5
  have e7 : ¬("G53 G0 Z" ++ qStr s.zone1 = y) :=
    ne_sym_of_take2 (by rw [take2_append _ (by decide)]; exact hG5)
  have e8 : ¬(("G4 P0.2" : String) = y) := ne_sym_of_take2 hG4
  unfold createToolUnload
  by_cases hsp : s.spindleAtSpeed <;>
    simp [hsp, List.count_append, List.count_cons, e1, e2, e3, e4, e5, e6, e7, e8]

/-- The spin-reverse line occurs exactly once in the single unload
cycle. -/
theorem count_M4_unload (s : Settings) :
    (createToolUnload s).count ("M4 S" ++ qStr s.unloadRpm) = 1 := by
  have hyt : ("M4 S" ++ qStr s.unloadRpm).data.take 2 = ['M', '4'] := by
    rw [take2_append _ (by decide)]
    decide
  have e1 : ¬("G53 G0 Z" ++ qStr (s.zEngagement + s.zSpinOff) =
      "M4 S" ++ qStr s.unloadRpm) :=
    ne_sym_of_take2 (by rw [hyt, take2_append _ (by decide)]; decide)
  have e2 : ¬(("G65P6" : String) = "M4 S" ++ qStr s.unloadRpm) :=
    ne_sym_of_take2 (by rw [hyt]; decide)
  have e4 : ¬("G53 G1 Z" ++ qStr s.zEngagement ++ " F" ++ qStr s.engageFeedrate =
      "M4 S" ++ qStr s.unloadRpm) :=
    ne_sym_of_take2 (by
      rw [hyt, take2_append _ (two_le_data_append _ (two_le_data_append _ (by decide))),
        take2_append _ (two_le_data_append _ (by decide)), take2_append _ (by decide)]
      decide)
  have e5 : ¬("G53 G1 Z" ++ qStr (s.zEngagement + s.zRetreat) ++ " F"
      ++ qStr s.engageFeedrate = "M4 S" ++ qStr s.unloadRpm) :=
    ne_sym_of_take2 (by
      rw [hyt, take2_append _ (two_le_data_append _ (two_le_data_append _ (by decide))),
        take2_append _ (two_le_data_append _ (by decide)), take2_append _ (by decide)]
      decide)
  have e6 : ¬(("M5" : String) = "M4 S" ++ qStr s.unloadRpm) :=
    ne_sym_of_take2 (by rw [hyt]; decide)
  have e7 : ¬("G53 G0 Z" ++ qStr s.zone1 = "M4 S" ++ qStr s.unloadRpm) :=
    ne_sym_of_take2 (by rw [hyt, take2_append _ (by decide)]; decide)
  have e8 : ¬(("G4 P0.2" : String) = "M4 S" ++ qStr s.unloadRpm) :=
    ne_sym_of_take2 (by rw [hyt]; decide)
  unfold createToolUnload
  by_cases hsp : s.spindleAtSpeed <;>
    simp [hsp, List.count_append, List.count_cons, e1, e2, e4, e5, e6, e7, e8]

/-- **C2.**  For every normalized settings record and in-range current
tool, the unload section is exactly: safe-height and pocket moves, the
unload routine (unconditional), a sensor-triggered conditional containing
the unload routine a second time (one retry) and a nested second
sensor-triggered conditional holding the `FAILED_UNLOAD_TOOL` marker and
the Manual-Fallback routine, then the two closers and the offset clear.
The routine's spin-reverse line occurs exactly twice (one per routine
occurrence), the failure marker and the `M0` fallback pause exactly once
(inside the nested block, per the decomposition), and every block line
(first character `o`) is an `IF` opener or an `ENDIF` closer — no
`WHILE`/`REPEAT` loop constructs. -/
theorem unload_retry_policy (s : Settings) (hs : NormalSettings s) (ct : Int)
    (pos : Coords) (h1 : 1 ≤ ct) (h2 : ct ≤ s.pockets) :
    buildUnloadTool s ct pos =
      ["G53 G0 Z" ++ qStr s.zSafe,
       "G53 G0 X" ++ qStr pos.x ++ " Y" ++ qStr pos.y]
        ++ createToolUnload s
        ++ getSensorCheckCondition s.toolSensor 1 100
        ++ createToolUnload s
        ++ getSensorCheckCondition s.toolSensor 1 101
        ++ ["G4 P0", "(MSG, PLUGIN_RAPIDCHANGEATC:FAILED_UNLOAD_TOOL)"]
        ++ createManualToolFallback s
        ++ [getSensorCheckClose 101, getSensorCheckClose 100, "M61 Q0"] ∧
    (buildUnloadTool s ct pos).count ("M4 S" ++ qStr s.unloadRpm) = 2 ∧
    (buildUnloadTool s ct pos).count "(MSG, PLUGIN_RAPIDCHANGEATC:FAILED_UNLOAD_TOOL)"
      = 1 ∧
    (buildUnloadTool s ct pos).count "M0" = 1 ∧
    (∀ l ∈ buildUnloadTool s ct pos, l.data.head? = some 'o' →
      strContains l " IF " = true ∨ strContains l "ENDIF" = true) := by
  unfold NormalSettings at hs
  obtain ⟨-, -, -, -, -, hp8, -, -, -⟩ := hs
  have hmain : buildUnloadTool s ct pos =
      ["G53 G0 Z" ++ qStr s.zSafe,
       "G53 G0 X" ++ qStr pos.x ++ " Y" ++ qStr pos.y]
        ++ createToolUnload s
        ++ getSensorCheckCondition s.toolSensor 1 100
        ++ createToolUnload s
        ++ getSensorCheckCondition s.toolSensor 1 101
        ++ ["G4 P0", "(MSG, PLUGIN_RAPIDCHANGEATC:FAILED_UNLOAD_TOOL)"]
        ++ createManualToolFallback s
        ++ [getSensorCheckClose 101, getSensorCheckClose 100, "M61 Q0"] := by
    unfold buildUnloadTool
    rw [if_neg (show ¬ct = 0 by omega),
      if_neg (show ¬ct = PROBE_TOOL_NUMBER by unfold PROBE_TOOL_NUMBER; omega),
      if_neg (show ¬s.pockets < ct by omega)]
  -- head and prefix facts for the three counted lines
  have hM4take : ("M4 S" ++ qStr s.unloadRpm).data.take 2 = ['M', '4'] := by
    rw [take2_append _ (by decide)]
    decide
  have hM4head : ("M4 S" ++ qStr s.unloadRpm).data.head? ≠ some 'o' := by
    rw [head_app _ (by decide)]
    decide
  -- per-chunk counts for the fixed-line chunks
  have cA : ∀ y : String, y.data.take 2 ≠ ['G', '5'] →
      (["G53 G0 Z" ++ qStr s.zSafe,
        "G53 G0 X" ++ qStr pos.x ++ " Y" ++ qStr pos.y] : List String).count y = 0 := by
    intro y hy
    have n1 : ¬("G53 G0 Z" ++ qStr s.zSafe = y) :=
      ne_sym_of_take2 (by rw [take2_append _ (by decide)]; exact hy)
    have n2 : ¬("G53 G0 X" ++ qStr pos.x ++ " Y" ++ qStr pos.y = y) :=
      ne_sym_of_take2 (by
        rw [take2_append _ (two_le_data_append _ (two_le_data_append _ (by decide))),
          take2_append _ (two_le_data_append _ (by decide)), take2_append _ (by decide)]
        exact hy)
    simp [List.count_cons, n1, n2]
  have cFB : ∀ y : String, y.data.take 2 ≠ ['G', '5'] → y ≠ "M0" →
      (createManualToolFallback s).count y = 0 := by
    intro y hy hy0
    have n1 : ¬("G53 G0 Z" ++ qStr s.zSafe = y) :=
      ne_sym_of_take2 (by rw [take2_append _ (by decide)]; exact hy)
    have n2 : ¬("G53 G0 X" ++ qStr s.manualTool.x ++ " Y" ++ qStr s.manualTool.y = y) :=
      ne_sym_of_take2 (by
        rw [take2_append _ (two_le_data_append _ (two_le_data_append _ (by decide))),
          take2_append _ (two_le_data_append _ (by decide)), take2_append _ (by decide)]
        exact hy)
    have n3 : ¬(("M0" : String) = y) := fun hh => hy0 hh.symm
    unfold createManualToolFallback
    simp [List.count_cons, n1, n2, n3]
  have cE : ∀ y : String, y.data.take 2 ≠ ['o', '1'] → y ≠ "M61 Q0" →
      ([getSensorCheckClose 101, getSensorCheckClose 100, "M61 Q0"] : List String).count y
        = 0 := by
    intro y hy hy0
    have n1 : ¬(getSensorCheckClose 101 = y) :=
      ne_sym_of_take2 (by
        rw [show getSensorCheckClose 101 = ("o" ++ toString 101) ++ " ENDIF" from rfl,
          take2_append _ (by decide)]
        intro hh
        exact hy (by rw [hh]; decide))
    have n2 : ¬(getSensorCheckClose 100 = y) :=
      ne_sym_of_take2 (by
        rw [show getSensorCheckClose 100 = ("o" ++ toString 100) ++ " ENDIF" from rfl,
          take2_append _ (by decide)]
        intro hh
        exact hy (by rw [hh]; decide))
    have n3 : ¬(("M61 Q0" : String) = y) := fun hh => hy0 hh.symm
    simp [List.count_cons, n1, n2, n3]
  refine ⟨hmain, ?_, ?_, ?_, ?_⟩
  · rw [hmain]
    simp only [List.count_append]
    rw [count_M4_unload s,
      cA _ (by rw [hM4take]; decide),
      count_cond_zero s.toolSensor 1 100 (by rw [hM4take]; decide) hM4head,
      count_cond_zero s.toolSensor 1 101 (by rw [hM4take]; decide) hM4head,
      cFB _ (by rw [hM4take]; decide)
        (ne_of_take2 (by rw [hM4take]; decide)),
      cE _ (by rw [hM4take]; decide) (ne_of_take2 (by rw [hM4take]; decide))]
    simp [List.count_cons,
      show ¬(("G4 P0" : String) = "M4 S" ++ qStr s.unloadRpm) from
        ne_sym_of_take2 (by rw [hM4take]; decide),
      show ¬(("(MSG, PLUGIN_RAPIDCHANGEATC:FAILED_UNLOAD_TOOL)" : String) =
        "M4 S" ++ qStr s.unloadRpm) from
        ne_sym_of_take2 (by rw [hM4take]; decide)]
  · rw [hmain]
    simp only [List.count_append]
    rw [count_unload_zero s (by decide) (by decide) (by decide) (by decide) (by decide),
      cA _ (by decide),
      count_cond_zero s.toolSensor 1 100 (by decide) (by decide),
      count_cond_zero s.toolSensor 1 101 (by decide) (by decide),
      cFB _ (by decide) (by decide),
      cE _ (by decide) (by decide)]
    simp [List.count_cons]
  · rw [hmain]
    simp only [List.count_append]
    rw [count_unload_zero s (by decide) (by decide) (by decide) (by decide) (by decide),
      cA _ (by decide),
      count_cond_zero s.toolSensor 1 100 (by decide) (by decide),
      count_cond_zero s.toolSensor 1 101 (by decide) (by decide),
      cE _ (by decide) (by decide)]
    unfold createManualToolFallback
    simp [List.count_cons, List.count_append,
      show ¬("G53 G0 Z" ++ qStr s.zSafe = "M0") from
        ne_sym_of_take2 (by rw [take2_append _ (by decide)]; decide),
      show ¬("G53 G0 X" ++ qStr s.manualTool.x ++ " Y" ++ qStr s.manualTool.y = "M0") from
        ne_sym_of_take2 (by
          rw [take2_append _ (two_le_data_append _ (two_le_data_append _ (by decide))),
            take2_append _ (two_le_data_append _ (by decide)),
            take2_append _ (by decide)]
          decide)]
  · intro l hl hhead
    rw [hmain] at hl
    simp only [List.mem_append, List.mem_cons, List.not_mem_nil, or_false] at hl
    rcases hl with ((((((hA | hU) | hC) | hU2) | hC2) | hL) | hF) | hE
    · rcases hA with rfl | rfl
      · exact absurd hhead (by rw [head_app _ (by decide)]; decide)
      · exact absurd hhead (by
          rw [head_app _ (data_append_ne_nil _ (data_append_ne_nil _ (by decide))),
            head_app _ (data_append_ne_nil _ (by decide)), head_app _ (by decide)]
          decide)
    · exact absurd hhead (noOLines_unload s l hU)
    · exact Or.inl (cond_o_line_if s.toolSensor 1 100 l hC hhead)
    · exact absurd hhead (noOLines_unload s l hU2)
    · exact Or.inl (cond_o_line_if s.toolSensor 1 101 l hC2 hhead)
    · rcases hL with rfl | rfl
      · exact absurd hhead (by decide)
      · exact absurd hhead (by decide)
    · exact absurd hhead (noOLines_fallback s l hF)
    · rcases hE with rfl | rfl | rfl
      · exact Or.inr (strContains_append_right _ (by decide))
      · exact Or.inr (strContains_append_right _ (by decide))
      · exact absurd hhead (by decide)

/-- Witness for the C2 theorem: the default configuration, current tool 2
at pocket position (0, -45). -/
theorem unload_retry_policy_witness :
    NormalSettings (buildInitialConfig {}) ∧
    (1 : Int) ≤ 2 ∧ (2 : Int) ≤ (buildInitialConfig {}).pockets ∧
    (buildUnloadTool (buildInitialConfig {}) 2 ⟨0, -45⟩).count
      ("M4 S" ++ qStr (buildInitialConfig {}).unloadRpm) = 2 ∧
    (buildUnloadTool (buildInitialConfig {}) 2 ⟨0, -45⟩).count
      "(MSG, PLUGIN_RAPIDCHANGEATC:FAILED_UNLOAD_TOOL)" = 1 ∧
    (buildUnloadTool (buildInitialConfig {}) 2 ⟨0, -45⟩).count "M0" = 1 :=
  ⟨buildInitialConfig_normal {}, by omega, by decide,
    ((unload_retry_policy (buildInitialConfig {}) (buildInitialConfig_normal {})
      2 ⟨0, -45⟩ (by omega) (by decide)).2.1),
    ((unload_retry_policy (buildInitialConfig {}) (buildInitialConfig_normal {})
      2 ⟨0, -45⟩ (by omega) (by decide)).2.2.1),
    ((unload_retry_policy (buildInitialConfig {}) (buildInitialConfig_normal {})
      2 ⟨0, -45⟩ (by omega) (by decide)).2.2.2.1)⟩

/-! ## C1: two-zone load verification -/

theorem qStr_intCast (n : ℤ) : qStr ((n : ℤ) : ℚ) = toString n := by
  unfold qStr
  rw [Rat.den_intCast, Rat.num_intCast]
  simp

/-- **C1 counterexample.**  In the load routine for the default
configuration (toolSensor `Probe/TLS`) and tool 3, the offset-register
update `M61 Q3` is emitted immediately *after* the `o300 ENDIF` closer —
outside both conditional blocks — so it is not emitted "so that it
executes only when neither failure condition holds": the failure branches
pause with `M0` and, on operator resume, fall through to it as well. -/
theorem load_m61_unconditional_counterexample :
    (buildInitialConfig {}).toolSensor = "Probe/TLS" ∧
    List.indexOf "M61 Q3" (createToolLoad (buildInitialConfig {}) 3) =
      List.indexOf "o300 ENDIF" (createToolLoad (buildInitialConfig {}) 3) + 1 ∧
    ¬(List.indexOf "M61 Q3" (createToolLoad (buildInitialConfig {}) 3) <
      List.indexOf "o300 ENDIF" (createToolLoad (buildInitialConfig {}) 3)) := by
  have e1 : (buildInitialConfig {}).zEngagement + (buildInitialConfig {}).zSpinOff
      = ((-27 : ℤ) : ℚ) := by
    rw [show (buildInitialConfig {}).zEngagement = (-50 : ℚ) from rfl,
      show (buildInitialConfig {}).zSpinOff = (23 : ℚ) from rfl]
    norm_num
  have e2 : (buildInitialConfig {}).zEngagement + (buildInitialConfig {}).zRetreat
      = ((-43 : ℤ) : ℚ) := by
    rw [show (buildInitialConfig {}).zEngagement = (-50 : ℚ) from rfl,
      show (buildInitialConfig {}).zRetreat = (7 : ℚ) from rfl]
    norm_num
  have hlist : createToolLoad (buildInitialConfig {}) 3 =
      ["G53 G0 Z-27", "M3 S1200",
       "G53 G1 Z-50 F3500", "G53 G1 Z-43 F3500",
       "G53 G1 Z-50 F3500", "G53 G1 Z-43 F3500",
       "G53 G1 Z-50 F3500", "G53 G1 Z-43 F3500",
       "M5", "G53 G0 Z-27", "G4 P0.2",
       "o300 IF [#<_probe_state> EQ 0 AND #<_toolsetter_state> EQ 0]",
       "G4 P0", "(MSG, PLUGIN_RAPIDCHANGEATC:FAILED_LOAD_TOOL)",
       "G53 G0 Z0", "G53 G0 X0 Y0", "M0",
       "o300 ELSE", "G53 G0 Z-22", "G4 P0.2",
       "o301 IF [#<_probe_state> EQ 1 OR #<_toolsetter_state> EQ 1]",
       "G4 P0", "(MSG, PLUGIN_RAPIDCHANGEATC:FAILED_LOAD_TOOL)",
       "G53 G0 Z0", "G53 G0 X0 Y0", "M0",
       "o301 ENDIF", "o300 ENDIF", "M61 Q3"] := by
    unfold createToolLoad
    dsimp only
    rw [e1, e2, qStr_intCast (-27), qStr_intCast (-43)]
    decide
  refine ⟨rfl, ?_, ?_⟩
  · rw [hlist]
    decide
  · rw [hlist]
    decide

/-- **C1 (amended).**  For every normalized settings record with
toolSensor `Probe/TLS` and in-range tool `t`, the load routine is
exactly: approach, optional spindle-wait, spin forward at `loadRpm`, the
triple engage/retreat cycle (three pairs of G1 moves to `zEngagement` and
`zEngagement+zRetreat`), spindle stop, rise to `zone1`, the
"not triggered" check (AND of probe `EQ 0` and toolsetter `EQ 0`) whose
true branch holds the `FAILED_LOAD_TOOL` marker and the Manual-Fallback
block, the `o300 ELSE` branch rising to `zone2` with the "triggered"
check (OR of probe `EQ 1` or toolsetter `EQ 1`) whose true branch holds
the marker and the Manual-Fallback block — and the `M61 Q{t}` update is
emitted unconditionally as the final line, after the `o300 ENDIF` closer
(not only when neither failure condition holds: the failure branches
pause with `M0` before reaching it). -/
theorem load_two_zone_check (s : Settings) (hs : NormalSettings s)
    (hsensor : s.toolSensor = "Probe/TLS") (t : Int)
    (h1 : 1 ≤ t) (h2 : t ≤ s.pockets) :
    createToolLoad s t =
      ["G53 G0 Z" ++ qStr (s.zEngagement + s.zSpinOff)]
        ++ (if s.spindleAtSpeed then [] else ["G65P6"])
        ++ ["M3 S" ++ qStr s.loadRpm,
            "G53 G1 Z" ++ qStr s.zEngagement ++ " F" ++ qStr s.engageFeedrate,
            "G53 G1 Z" ++ qStr (s.zEngagement + s.zRetreat) ++ " F"
              ++ qStr s.engageFeedrate,
            "G53 G1 Z" ++ qStr s.zEngagement ++ " F" ++ qStr s.engageFeedrate,
            "G53 G1 Z" ++ qStr (s.zEngagement + s.zRetreat) ++ " F"
              ++ qStr s.engageFeedrate,
            "G53 G1 Z" ++ qStr s.zEngagement ++ " F" ++ qStr s.engageFeedrate,
            "G53 G1 Z" ++ qStr (s.zEngagement + s.zRetreat) ++ " F"
              ++ qStr s.engageFeedrate]
        ++ (if s.spindleAtSpeed then [] else ["G65P6"])
        ++ ["M5",
            "G53 G0 Z" ++ qStr s.zone1,
            "G4 P0.2",
            "o300 IF [#<_probe_state> EQ 0 AND #<_toolsetter_state> EQ 0]",
            "G4 P0",
            "(MSG, PLUGIN_RAPIDCHANGEATC:FAILED_LOAD_TOOL)"]
        ++ createManualToolFallback s
        ++ ["o300 ELSE",
            "G53 G0 Z" ++ qStr s.zone2,
            "G4 P0.2",
            "o301 IF [#<_probe_state> EQ 1 OR #<_toolsetter_state> EQ 1]",
            "G4 P0",
            "(MSG, PLUGIN_RAPIDCHANGEATC:FAILED_LOAD_TOOL)"]
        ++ createManualToolFallback s
        ++ ["o301 ENDIF", "o300 ENDIF", "M61 Q" ++ toString t] ∧
    (createToolLoad s t).getLast? = some ("M61 Q" ++ toString t) := by
  have hD : createToolLoad s t =
      ["G53 G0 Z" ++ qStr (s.zEngagement + s.zSpinOff)]
        ++ (if s.spindleAtSpeed then [] else ["G65P6"])
        ++ ["M3 S" ++ qStr s.loadRpm,
            "G53 G1 Z" ++ qStr s.zEngagement ++ " F" ++ qStr s.engageFeedrate,
            "G53 G1 Z" ++ qStr (s.zEngagement + s.zRetreat) ++ " F"
              ++ qStr s.engageFeedrate,
            "G53 G1 Z" ++ qStr s.zEngagement ++ " F" ++ qStr s.engageFeedrate,
            "G53 G1 Z" ++ qStr (s.zEngagement + s.zRetreat) ++ " F"
              ++ qStr s.engageFeedrate,
            "G53 G1 Z" ++ qStr s.zEngagement ++ " F" ++ qStr s.engageFeedrate,
            "G53 G1 Z" ++ qStr (s.zEngagement + s.zRetreat) ++ " F"
              ++ qStr s.engageFeedrate]
        ++ (if s.spindleAtSpeed then [] else ["G65P6"])
        ++ ["M5",
            "G53 G0 Z" ++ qStr s.zone1,
            "G4 P0.2",
            "o300 IF [#<_probe_state> EQ 0 AND #<_toolsetter_state> EQ 0]",
            "G4 P0",
            "(MSG, PLUGIN_RAPIDCHANGEATC:FAILED_LOAD_TOOL)"]
        ++ createManualToolFallback s
        ++ ["o300 ELSE",
            "G53 G0 Z" ++ qStr s.zone2,
            "G4 P0.2",
            "o301 IF [#<_probe_state> EQ 1 OR #<_toolsetter_state> EQ 1]",
            "G4 P0",
            "(MSG, PLUGIN_RAPIDCHANGEATC:FAILED_LOAD_TOOL)"]
        ++ createManualToolFallback s
        ++ ["o301 ENDIF", "o300 ENDIF", "M61 Q" ++ toString t] := by
    have hcond0 : getSensorCheckCondition "Probe/TLS" 0 300 =
        ["o300 IF [#<_probe_state> EQ 0 AND #<_toolsetter_state> EQ 0]"] := by decide
    have hcond1 : getSensorCheckCondition "Probe/TLS" 1 301 =
        ["o301 IF [#<_probe_state> EQ 1 OR #<_toolsetter_state> EQ 1]"] := by decide
    have hclose1 : getSensorCheckClose 301 = "o301 ENDIF" := by decide
    have hclose0 : getSensorCheckClose 300 = "o300 ENDIF" := by decide
    unfold createToolLoad
    rw [hsensor]
    dsimp only
    rw [hcond0, hcond1, hclose1, hclose0]
    simp
  refine ⟨hD, ?_⟩
  rw [hD, getLast?_append_right _ (by simp)]
  simp

/-- Witness for the amended C1 theorem: the default configuration
(sensor `Probe/TLS`, 6 pockets), tool 3. -/
theorem load_two_zone_check_witness :
    NormalSettings (buildInitialConfig {}) ∧
    (buildInitialConfig {}).toolSensor = "Probe/TLS" ∧
    (1 : Int) ≤ 3 ∧ (3 : Int) ≤ (buildInitialConfig {}).pockets ∧
    (createToolLoad (buildInitialConfig {}) 3).getLast? = some ("M61 Q" ++ toString (3 : Int)) :=
  ⟨buildInitialConfig_normal {}, rfl, by omega, by decide,
    (load_two_zone_check (buildInitialConfig {}) (buildInitialConfig_normal {})
      rfl 3 (by omega) (by decide)).2⟩

/-! ## Scanner/splicer helper lemmas -/

theorem findSplit_none {α : Type} {p : α → Bool} : ∀ {l : List α},
    (∀ c ∈ l, p c = false) → findSplit p l = none := by
  intro l h
  induction l with
  | nil => rfl
  | cons c rest ih =>
      unfold findSplit
      rw [if_neg (by simp [h c (List.mem_cons_self c rest)])]
      rw [ih (fun x hx => h x (List.mem_cons_of_mem c hx))]
      rfl

theorem findSplit_append {α : Type} {p : α → Bool} (pre : List α) (t : α) (post : List α)
    (hpre : ∀ c ∈ pre, p c = false) (ht : p t = true) :
    findSplit p (pre ++ t :: post) = some (pre, t, post) := by
  induction pre with
  | nil =>
      rw [List.nil_append]
      unfold findSplit
      rw [if_pos ht]
  | cons c rest ih =>
      rw [List.cons_append]
      unfold findSplit
      rw [if_neg (by simp [hpre c (List.mem_cons_self c rest)])]
      rw [ih (fun x hx => hpre x (List.mem_cons_of_mem c hx))]
      rfl

theorem handleTLS_id (ctx : Context) (settings : Settings) {commands : List CommandEntry}
    (h : ∀ c ∈ commands, isTlsTrigger c = false) :
    handleTLSCommand commands ctx settings = commands := by
  unfold handleTLSCommand
  rw [findSplit_none h]

theorem handleHome_id (ctx : Context) (settings : Settings) {commands : List CommandEntry}
    (h : ∀ c ∈ commands, isHomeTrigger c = false) :
    handleHomeCommand commands ctx settings = commands := by
  unfold handleHomeCommand
  rw [findSplit_none h]

theorem handleHome_flag_off (ctx : Context) {settings : Settings}
    (commands : List CommandEntry) (hflag : settings.performTlsAfterHome = false) :
    handleHomeCommand commands ctx settings = commands := by
  unfold handleHomeCommand
  split
  · rfl
  · rw [hflag]
    rfl

theorem handlePocket1_id (settings : Settings) {commands : List CommandEntry}
    (h : ∀ c ∈ commands, isPocket1Trigger c = false) :
    handlePocket1Command commands settings = commands := by
  unfold handlePocket1Command
  rw [findSplit_none h]

theorem handleM6_id (ctx : Context) (settings : Settings) {commands : List CommandEntry}
    (h : ∀ c ∈ commands, isM6Trigger c = false) :
    handleM6Command commands ctx settings = commands := by
  unfold handleM6Command
  rw [findSplit_none h]

theorem handleTLS_expand (ctx : Context) (settings : Settings)
    {pre post : List CommandEntry} {t : CommandEntry}
    (hpre : ∀ c ∈ pre, isTlsTrigger c = false) (ht : isTlsTrigger t = true) :
    handleTLSCommand (pre ++ t :: post) ctx settings =
      pre ++ expandLines (createToolLengthSetProgram settings
          (getToolOffsets (ctx.machineStateTool.getD 0) ctx.tools))
        t.command settings.showMacroCommand ++ post := by
  unfold handleTLSCommand
  rw [findSplit_append pre t post hpre ht]

theorem handleHome_expand (ctx : Context) {settings : Settings}
    {pre post : List CommandEntry} {t : CommandEntry}
    (hflag : settings.performTlsAfterHome = true)
    (hpre : ∀ c ∈ pre, isHomeTrigger c = false) (ht : isHomeTrigger t = true) :
    handleHomeCommand (pre ++ t :: post) ctx settings =
      pre ++ expandLines (formatGCode (homeGcodeTemplate settings
          (createToolLengthSetRoutine settings
            (getToolOffsets (ctx.machineStateTool.getD 0) ctx.tools))))
        t.command settings.showMacroCommand ++ post := by
  unfold handleHomeCommand
  rw [findSplit_append pre t post hpre ht]
  rw [hflag]
  rfl

theorem handlePocket1_expand (settings : Settings)
    {pre post : List CommandEntry} {t : CommandEntry}
    (hpre : ∀ c ∈ pre, isPocket1Trigger c = false) (ht : isPocket1Trigger t = true) :
    handlePocket1Command (pre ++ t :: post) settings =
      pre ++ expandLines (formatGCode
          ["G53 G21 G90 G0 Z" ++ qStr settings.zSafe,
           "G53 G21 G90 G0 X" ++ qStr settings.pocket1.x ++ " Y"
             ++ qStr settings.pocket1.y])
        t.command settings.showMacroCommand ++ post := by
  unfold handlePocket1Command
  rw [findSplit_append pre t post hpre ht]

theorem handleM6_expand (ctx : Context) (settings : Settings)
    {pre post : List CommandEntry} {t : CommandEntry} {n : Int}
    (hpre : ∀ c ∈ pre, isM6Trigger c = false) (ht : isM6Trigger t = true)
    (hn : parseM6Command t.command = some (some n)) :
    handleM6Command (pre ++ t :: post) ctx settings =
      pre ++ expandLines (buildToolChangeProgram settings (ctx.machineStateTool.getD 0)
          n (getToolOffsets n ctx.tools))
        t.command settings.showMacroCommand ++ post := by
  unfold handleM6Command
  rw [findSplit_append pre t post hpre ht]
  dsimp only
  rw [hn]

/-! ## Trigger-category exclusivity -/

theorem strTrig_norm {c : CommandEntry} {v : String}
    (h : (c.isOriginal && (jsUpper (jsTrim c.command) == v)) = true) :
    jsUpper (jsTrim c.command) = v ∧ c.isOriginal = true := by
  rw [Bool.and_eq_true] at h
  exact ⟨beq_iff_eq.mp h.2, h.1⟩

theorem strTrig_false_of_norm {c : CommandEntry} {u v : String}
    (h : jsUpper (jsTrim c.command) = u) (hne : (u == v) = false) :
    (c.isOriginal && (jsUpper (jsTrim c.command) == v)) = false := by
  rw [h, hne, Bool.and_false]

theorem strTrig_false_of_ne {c : CommandEntry} {v : String}
    (hne : jsUpper (jsTrim c.command) ≠ v) :
    (c.isOriginal && (jsUpper (jsTrim c.command) == v)) = false := by
  rw [beq_eq_false_iff_ne.mpr hne, Bool.and_false]

theorem parse_none_of_norm {cmd u : String} (h : jsUpper (jsTrim cmd) = u)
    (hu : m6Scan none u.data = none) : parseM6Command cmd = none := by
  unfold parseM6Command
  split
  · rfl
  · rw [h, hu]

theorem isM6_false_of_norm {c : CommandEntry} {u : String}
    (h : jsUpper (jsTrim c.command) = u) (hu : m6Scan none u.data = none) :
    isM6Trigger c = false := by
  unfold isM6Trigger
  rw [parse_none_of_norm h hu]
  simp

theorem m6_norm_ne {c : CommandEntry} (ht : isM6Trigger c = true) {u : String}
    (hu : m6Scan none u.data = none) : jsUpper (jsTrim c.command) ≠ u := by
  intro h
  unfold isM6Trigger at ht
  rw [parse_none_of_norm h hu] at ht
  simp at ht

theorem m6scan_tls : m6Scan none ("$TLS" : String).data = none := by decide

theorem m6scan_home : m6Scan none ("$H" : String).data = none := by decide

theorem m6scan_pocket1 : m6Scan none ("$POCKET1" : String).data = none := by decide

/-! ## Expansion-shape lemmas -/

theorem expandLines_not_original (program : List String) (orig : String) (sh : Bool) :
    ∀ c ∈ expandLines program orig sh, c.isOriginal = false := by
  unfold expandLines
  cases program with
  | nil => intro c hc; simp at hc
  | cons l rest =>
      intro c hc
      rcases List.mem_cons.mp hc with rfl | hc
      · rfl
      · obtain ⟨l2, -, rfl⟩ := List.mem_map.mp hc
        rfl

theorem expandLines_spec (program : List String) (orig : String)
    (hne : program ≠ []) :
    ∃ e es, expandLines program orig false = e :: es ∧
      e.displayCommand = some (jsTrim orig) ∧ e.isOriginal = false ∧ e.silent = false ∧
      e.command = program.head hne ∧
      ∀ x ∈ es, x.displayCommand = none ∧ x.isOriginal = false ∧ x.silent = true := by
  cases program with
  | nil => exact absurd rfl hne
  | cons l rest =>
      refine ⟨_, _, rfl, rfl, rfl, rfl, rfl, ?_⟩
      intro x hx
      obtain ⟨l2, -, rfl⟩ := List.mem_map.mp hx
      exact ⟨rfl, rfl, rfl⟩

theorem cleanLines_cons_clean {l : String} (ls : List String)
    (h1 : jsTrim l = l) (h2 : l ≠ "") : cleanLines (l :: ls) = l :: cleanLines ls := by
  simp [cleanLines, h1, h2]

theorem formatGCode_cons_shape {l : String} (ls : List String)
    (h1 : jsTrim l = l) (h2 : l ≠ "") :
    formatGCode (l :: ls) ≠ [] ∧ (formatGCode (l :: ls)).head? = some l := by
  have hc := cleanLines_cons_clean ls h1 h2
  have hf := formatGCode_cons_clean hc
  rw [hf]
  exact ⟨by simp, rfl⟩

theorem cleanStr_lit_q {lit : String} (x : ℚ) (hne : lit.data ≠ [])
    (hhead : ∀ c, lit.data.head? = some c → isWsChar c = false) :
    jsTrim (lit ++ qStr x) = lit ++ qStr x ∧ (lit ++ qStr x) ≠ "" := by
  constructor
  · refine jsTrim_eq_self ?_ ?_
    · intro c hc
      rw [strData_append, head?_append_left _ hne] at hc
      exact hhead c hc
    · intro c hc
      rw [strData_append, getLast?_append_right _ (qStr_chars x).2] at hc
      exact qChar_not_ws ((qStr_chars x).1 c (List.mem_of_mem_getLast? hc))
  · intro hh
    exact data_append_ne_nil (qStr x) hne (congrArg String.data hh)

/-! ## C8: home-triggered TLS guard -/

theorem cleanLines_append (a b : List String) :
    cleanLines (a ++ b) = cleanLines a ++ cleanLines b := by
  simp [cleanLines, List.filter_append]

/-- **C8.**  With `performTlsAfterHome` false, `handleHomeCommand` leaves
any command list unchanged; with it true, the single matched `$H` entry
(no earlier match) is replaced by an expanded program whose first emitted
line is `$H` and whose remaining lines are, in order and up to
indentation, the `o100 IF [[#<_tool_offset> EQ 0] AND [#<_current_tool>
NE 0]]` guard wrapping the tool-length-setter routine, closed by
`o100 ENDIF` — the TLS routine runs only when the tool-length-offset
register is zero and the loaded tool is nonzero. -/
theorem home_tls_guard (settings : Settings) (ctx : Context) :
    (settings.performTlsAfterHome = false →
      ∀ commands : List CommandEntry, handleHomeCommand commands ctx settings = commands) ∧
    (settings.performTlsAfterHome = true →
      ∀ (pre post : List CommandEntry) (t : CommandEntry),
        isHomeTrigger t = true → (∀ c ∈ pre, isHomeTrigger c = false) →
        ∃ prog : List String,
          handleHomeCommand (pre ++ t :: post) ctx settings =
            pre ++ expandLines prog t.command settings.showMacroCommand ++ post ∧
          prog.head? = some "$H" ∧
          ∃ ks : List Nat,
            prog = List.zipWith (fun k l => indentStr k ++ l) ks
              (["$H", "#<return_units> = [20 + #<_metric>]",
                "o100 IF [[#<_tool_offset> EQ 0] AND [#<_current_tool> NE 0]]"]
                ++ cleanLines (snippetLines settings.preToolChangeGcode)
                ++ ["G21"]
                ++ cleanLines (createToolLengthSetRoutine settings
                    (getToolOffsets (ctx.machineStateTool.getD 0) ctx.tools))
                ++ ["G53 G0 Z" ++ qStr settings.zSafe, "G4 P0", "G53 G0 X0 Y0"]
                ++ cleanLines (snippetLines settings.postToolChangeGcode)
                ++ ["o100 ENDIF", "G[#<return_units>]"])) := by
  constructor
  · intro hflag commands
    exact handleHome_flag_off ctx commands hflag
  · intro hflag pre post t ht hpre
    set tls := createToolLengthSetRoutine settings
      (getToolOffsets (ctx.machineStateTool.getD 0) ctx.tools) with htls
    have hclean : cleanLines (homeGcodeTemplate settings tls) =
        ["$H", "#<return_units> = [20 + #<_metric>]",
         "o100 IF [[#<_tool_offset> EQ 0] AND [#<_current_tool> NE 0]]"]
          ++ cleanLines (snippetLines settings.preToolChangeGcode)
          ++ ["G21"]
          ++ cleanLines tls
          ++ ["G53 G0 Z" ++ qStr settings.zSafe, "G4 P0", "G53 G0 X0 Y0"]
          ++ cleanLines (snippetLines settings.postToolChangeGcode)
          ++ ["o100 ENDIF", "G[#<return_units>]"] := by
      unfold homeGcodeTemplate
      simp only [cleanLines_append]
      rw [show cleanLines ["$H", "#<return_units> = [20 + #<_metric>]",
          "o100 IF [[#<_tool_offset> EQ 0] AND [#<_current_tool> NE 0]]"]
        = ["$H", "#<return_units> = [20 + #<_metric>]",
          "o100 IF [[#<_tool_offset> EQ 0] AND [#<_current_tool> NE 0]]"] from by decide]
      rw [show cleanLines ["G21"] = ["G21"] from by decide]
      rw [show cleanLines ["o100 ENDIF", "G[#<return_units>]"]
        = ["o100 ENDIF", "G[#<return_units>]"] from by decide]
      rw [cleanLines_cons_clean _
        (cleanStr_lit_q settings.zSafe (by decide) (by
          intro c hc
          rw [show ("G53 G0 Z" : String).data.head? = some 'G' from rfl] at hc
          injection hc with hc2
          subst hc2
          decide)).1
        (cleanStr_lit_q settings.zSafe (by decide) (by
          intro c hc
          rw [show ("G53 G0 Z" : String).data.head? = some 'G' from rfl] at hc
          injection hc with hc2
          subst hc2
          decide)).2]
      rw [show cleanLines ["G4 P0", "G53 G0 X0 Y0"] = ["G4 P0", "G53 G0 X0 Y0"]
        from by decide]
    refine ⟨formatGCode (homeGcodeTemplate settings tls),
      handleHome_expand ctx hflag hpre ht, ?_, ?_⟩
    · exact (formatGCode_cons_shape _ (by decide) (by decide)).2
    · obtain ⟨ks, h1, -⟩ := formatGCodeAux_zip (cleanLines (homeGcodeTemplate settings tls)) 0
      refine ⟨ks, ?_⟩
      rw [show formatGCode (homeGcodeTemplate settings tls)
        = formatGCodeAux 0 (cleanLines (homeGcodeTemplate settings tls)) from rfl, h1, hclean]

/-- Witness for the C8 theorem: the default configuration (flag off) and
the flag-on configuration, each on the single original `$H` entry. -/
theorem home_tls_guard_witness :
    handleHomeCommand [⟨"$H", none, true, false⟩] {} (buildInitialConfig {})
      = [⟨"$H", none, true, false⟩] ∧
    (∃ prog : List String,
      handleHomeCommand [⟨"$H", none, true, false⟩] {}
          (buildInitialConfig { performTlsAfterHome := some true }) =
        [] ++ expandLines prog (CommandEntry.command ⟨"$H", none, true, false⟩)
          (buildInitialConfig { performTlsAfterHome := some true }).showMacroCommand ++ [] ∧
      prog.head? = some "$H" ∧
      ∃ ks : List Nat,
        prog = List.zipWith (fun k l => indentStr k ++ l) ks
          (["$H", "#<return_units> = [20 + #<_metric>]",
            "o100 IF [[#<_tool_offset> EQ 0] AND [#<_current_tool> NE 0]]"]
            ++ cleanLines (snippetLines
                (buildInitialConfig { performTlsAfterHome := some true }).preToolChangeGcode)
            ++ ["G21"]
            ++ cleanLines (createToolLengthSetRoutine
                (buildInitialConfig { performTlsAfterHome := some true })
                (getToolOffsets ((Context.machineStateTool {}).getD 0) (Context.tools {})))
            ++ ["G53 G0 Z"
                ++ qStr (buildInitialConfig { performTlsAfterHome := some true }).zSafe,
               "G4 P0", "G53 G0 X0 Y0"]
            ++ cleanLines (snippetLines
                (buildInitialConfig { performTlsAfterHome := some true }).postToolChangeGcode)
            ++ ["o100 ENDIF", "G[#<return_units>]"])) :=
  ⟨(home_tls_guard (buildInitialConfig {}) {}).1 rfl [⟨"$H", none, true, false⟩],
    (home_tls_guard (buildInitialConfig { performTlsAfterHome := some true }) {}).2 rfl
      [] [] ⟨"$H", none, true, false⟩ (by decide)
      (fun c hc => absurd hc (List.not_mem_nil c))⟩

/-! ## C6: single-trigger expansion and visibility policy -/

theorem trigger_false_of_not_original {c : CommandEntry} (h : c.isOriginal = false) :
    isTlsTrigger c = false ∧ isHomeTrigger c = false ∧ isPocket1Trigger c = false ∧
      isM6Trigger c = false := by
  unfold isTlsTrigger isHomeTrigger isPocket1Trigger isM6Trigger
  rw [h]
  simp

theorem isM6Trigger_parse {t : CommandEntry} (ht : isM6Trigger t = true) :
    ∃ n : Int, parseM6Command t.command = some (some n) := by
  unfold isM6Trigger at ht
  rw [Bool.and_eq_true] at ht
  have h2 := ht.2
  rcases hp : parseM6Command t.command with _ | hh
  · rw [hp] at h2
    simp at h2
  · rcases hh with _ | n
    · rw [hp] at h2
      simp at h2
    · exact ⟨n, rfl⟩

/-- **C6.**  If `showMacroCommand` is false and the command list contains
exactly one trigger entry (an original M6 tool change, `$TLS`,
`$POCKET1`, or `$H` with `performTlsAfterHome` set), then
`onBeforeCommand` performs exactly one expansion: the matched entry is
replaced in place by expanded entries of which exactly the first carries
a non-null `displayCommand` equal to the original (trimmed) trigger text,
every remaining expanded entry has null `displayCommand` and is marked
silent, all expanded entries have `isOriginal = false`, and every other
input entry appears unchanged in its original relative order. -/
theorem single_trigger_expansion (settings : Settings) (ctx : Context)
    (hshow : settings.showMacroCommand = false)
    (pre post : List CommandEntry) (t : CommandEntry)
    (htrig : isM6Trigger t = true ∨ isTlsTrigger t = true ∨ isPocket1Trigger t = true ∨
      (isHomeTrigger t = true ∧ settings.performTlsAfterHome = true))
    (hpre : ∀ c ∈ pre, isM6Trigger c = false ∧ isTlsTrigger c = false ∧
      isPocket1Trigger c = false ∧
      (isHomeTrigger c = false ∨ settings.performTlsAfterHome = false))
    (hpost : ∀ c ∈ post, isM6Trigger c = false ∧ isTlsTrigger c = false ∧
      isPocket1Trigger c = false ∧
      (isHomeTrigger c = false ∨ settings.performTlsAfterHome = false)) :
    ∃ e es, onBeforeCommand (pre ++ t :: post) ctx settings = pre ++ (e :: es) ++ post ∧
      e.displayCommand = some (jsTrim t.command) ∧ e.isOriginal = false ∧
      e.silent = false ∧
      ∀ x ∈ es, x.displayCommand = none ∧ x.isOriginal = false ∧ x.silent = true := by
  unfold onBeforeCommand
  rcases htrig with htM6 | htTLS | htP1 | ⟨htH, hflag⟩
  · -- M6 trigger
    obtain ⟨n, hn⟩ := isM6Trigger_parse htM6
    have hHome : handleHomeCommand (pre ++ t :: post) ctx settings = pre ++ t :: post := by
      cases hf : settings.performTlsAfterHome with
      | false => exact handleHome_flag_off ctx _ hf
      | true =>
          refine handleHome_id ctx settings ?_
          intro c hc
          rcases List.mem_append.mp hc with hc | hc
          · exact ((hpre c hc).2.2.2).resolve_right (by simp [hf])
          · rcases List.mem_cons.mp hc with rfl | hc
            · exact strTrig_false_of_ne (m6_norm_ne htM6 m6scan_home)
            · exact ((hpost c hc).2.2.2).resolve_right (by simp [hf])
    have hTls : handleTLSCommand (pre ++ t :: post) ctx settings = pre ++ t :: post := by
      refine handleTLS_id ctx settings ?_
      intro c hc
      rcases List.mem_append.mp hc with hc | hc
      · exact (hpre c hc).2.1
      · rcases List.mem_cons.mp hc with rfl | hc
        · exact strTrig_false_of_ne (m6_norm_ne htM6 m6scan_tls)
        · exact (hpost c hc).2.1
    have hP1 : handlePocket1Command (pre ++ t :: post) settings = pre ++ t :: post := by
      refine handlePocket1_id settings ?_
      intro c hc
      rcases List.mem_append.mp hc with hc | hc
      · exact (hpre c hc).2.2.1
      · rcases List.mem_cons.mp hc with rfl | hc
        · exact strTrig_false_of_ne (m6_norm_ne htM6 m6scan_pocket1)
        · exact (hpost c hc).2.2.1
    rw [hHome, hTls, hP1,
      handleM6_expand ctx settings (fun c hc => (hpre c hc).1) htM6 hn, hshow]
    have hne : buildToolChangeProgram settings (ctx.machineStateTool.getD 0) n
        (getToolOffsets n ctx.tools) ≠ [] :=
      (formatGCode_cons_shape _ (by decide) (by decide)).1
    obtain ⟨e, es, heq, h1, h2, h3, -, h4⟩ :=
      expandLines_spec _ t.command hne
    exact ⟨e, es, by rw [heq], h1, h2, h3, h4⟩
  · -- $TLS trigger
    have hnorm := (strTrig_norm htTLS).1
    have hHome : handleHomeCommand (pre ++ t :: post) ctx settings = pre ++ t :: post := by
      cases hf : settings.performTlsAfterHome with
      | false => exact handleHome_flag_off ctx _ hf
      | true =>
          refine handleHome_id ctx settings ?_
          intro c hc
          rcases List.mem_append.mp hc with hc | hc
          · exact ((hpre c hc).2.2.2).resolve_right (by simp [hf])
          · rcases List.mem_cons.mp hc with rfl | hc
            · exact strTrig_false_of_norm hnorm (by decide)
            · exact ((hpost c hc).2.2.2).resolve_right (by simp [hf])
    rw [hHome, handleTLS_expand ctx settings (fun c hc => (hpre c hc).2.1) htTLS, hshow]
    have hne : createToolLengthSetProgram settings
        (getToolOffsets (ctx.machineStateTool.getD 0) ctx.tools) ≠ [] :=
      (formatGCode_cons_shape _ (by decide) (by decide)).1
    obtain ⟨e, es, heq, h1, h2, h3, -, h4⟩ := expandLines_spec _ t.command hne
    rw [heq]
    have hexp := expandLines_not_original (createToolLengthSetProgram settings
      (getToolOffsets (ctx.machineStateTool.getD 0) ctx.tools)) t.command false
    rw [heq] at hexp
    have hP1 : handlePocket1Command (pre ++ (e :: es) ++ post) settings
        = pre ++ (e :: es) ++ post := by
      refine handlePocket1_id settings ?_
      intro c hc
      rcases List.mem_append.mp hc with hc | hc
      · rcases List.mem_append.mp hc with hc | hc
        · exact (hpre c hc).2.2.1
        · exact (trigger_false_of_not_original (hexp c hc)).2.2.1
      · exact (hpost c hc).2.2.1
    have hM6 : handleM6Command (pre ++ (e :: es) ++ post) ctx settings
        = pre ++ (e :: es) ++ post := by
      refine handleM6_id ctx settings ?_
      intro c hc
      rcases List.mem_append.mp hc with hc | hc
      · rcases List.mem_append.mp hc with hc | hc
        · exact (hpre c hc).1
        · exact (trigger_false_of_not_original (hexp c hc)).2.2.2
      · exact (hpost c hc).1
    rw [hP1, hM6]
    exact ⟨e, es, rfl, h1, h2, h3, h4⟩
  · -- $POCKET1 trigger
    have hnorm := (strTrig_norm htP1).1
    have hHome : handleHomeCommand (pre ++ t :: post) ctx settings = pre ++ t :: post := by
      cases hf : settings.performTlsAfterHome with
      | false => exact handleHome_flag_off ctx _ hf
      | true =>
          refine handleHome_id ctx settings ?_
          intro c hc
          rcases List.mem_append.mp hc with hc | hc
          · exact ((hpre c hc).2.2.2).resolve_right (by simp [hf])
          · rcases List.mem_cons.mp hc with rfl | hc
            · exact strTrig_false_of_norm hnorm (by decide)
            · exact ((hpost c hc).2.2.2).resolve_right (by simp [hf])
    have hTls : handleTLSCommand (pre ++ t :: post) ctx settings = pre ++ t :: post := by
      refine handleTLS_id ctx settings ?_
      intro c hc
      rcases List.mem_append.mp hc with hc | hc
      · exact (hpre c hc).2.1
      · rcases List.mem_cons.mp hc with rfl | hc
        · exact strTrig_false_of_norm hnorm (by decide)
        · exact (hpost c hc).2.1
    rw [hHome, hTls,
      handlePocket1_expand settings (fun c hc => (hpre c hc).2.2.1) htP1, hshow]
    have hne : formatGCode
        ["G53 G21 G90 G0 Z" ++ qStr settings.zSafe,
         "G53 G21 G90 G0 X" ++ qStr settings.pocket1.x ++ " Y"
           ++ qStr settings.pocket1.y] ≠ [] := by
      refine (formatGCode_cons_shape _ ?_ ?_).1
      · exact (cleanStr_lit_q settings.zSafe (by decide) (by
          intro c hc
          rw [show ("G53 G21 G90 G0 Z" : String).data.head? = some 'G' from rfl] at hc
          injection hc with hc2
          subst hc2
          decide)).1
      · exact (cleanStr_lit_q settings.zSafe (by decide) (by
          intro c hc
          rw [show ("G53 G21 G90 G0 Z" : String).data.head? = some 'G' from rfl] at hc
          injection hc with hc2
          subst hc2
          decide)).2
    obtain ⟨e, es, heq, h1, h2, h3, -, h4⟩ := expandLines_spec _ t.command hne
    rw [heq]
    have hexp := expandLines_not_original (formatGCode
      ["G53 G21 G90 G0 Z" ++ qStr settings.zSafe,
       "G53 G21 G90 G0 X" ++ qStr settings.pocket1.x ++ " Y"
         ++ qStr settings.pocket1.y]) t.command false
    rw [heq] at hexp
    have hM6 : handleM6Command (pre ++ (e :: es) ++ post) ctx settings
        = pre ++ (e :: es) ++ post := by
      refine handleM6_id ctx settings ?_
      intro c hc
      rcases List.mem_append.mp hc with hc | hc
      · rcases List.mem_append.mp hc with hc | hc
        · exact (hpre c hc).1
        · exact (trigger_false_of_not_original (hexp c hc)).2.2.2
      · exact (hpost c hc).1
    rw [hM6]
    exact ⟨e, es, rfl, h1, h2, h3, h4⟩
  · -- $H trigger with performTlsAfterHome
    have hnorm := (strTrig_norm htH).1
    have hpreH : ∀ c ∈ pre, isHomeTrigger c = false := by
      intro c hc
      exact ((hpre c hc).2.2.2).resolve_right (by simp [hflag])
    rw [handleHome_expand ctx hflag hpreH htH, hshow]
    have hne : formatGCode (homeGcodeTemplate settings
        (createToolLengthSetRoutine settings
          (getToolOffsets (ctx.machineStateTool.getD 0) ctx.tools))) ≠ [] :=
      (formatGCode_cons_shape _ (by decide) (by decide)).1
    obtain ⟨e, es, heq, h1, h2, h3, -, h4⟩ := expandLines_spec _ t.command hne
    rw [heq]
    have hexp := expandLines_not_original (formatGCode (homeGcodeTemplate settings
      (createToolLengthSetRoutine settings
        (getToolOffsets (ctx.machineStateTool.getD 0) ctx.tools)))) t.command false
    rw [heq] at hexp
    have hTls : handleTLSCommand (pre ++ (e :: es) ++ post) ctx settings
        = pre ++ (e :: es) ++ post := by
      refine handleTLS_id ctx settings ?_
      intro c hc
      rcases List.mem_append.mp hc with hc | hc
      · rcases List.mem_append.mp hc with hc | hc
        · exact (hpre c hc).2.1
        · exact (trigger_false_of_not_original (hexp c hc)).1
      · exact (hpost c hc).2.1
    have hP1 : handlePocket1Command (pre ++ (e :: es) ++ post) settings
        = pre ++ (e :: es) ++ post := by
      refine handlePocket1_id settings ?_
      intro c hc
      rcases List.mem_append.mp hc with hc | hc
      · rcases List.mem_append.mp hc with hc | hc
        · exact (hpre c hc).2.2.1
        · exact (trigger_false_of_not_original (hexp c hc)).2.2.1
      · exact (hpost c hc).2.2.1
    have hM6 : handleM6Command (pre ++ (e :: es) ++ post) ctx settings
        = pre ++ (e :: es) ++ post := by
      refine handleM6_id ctx settings ?_
      intro c hc
      rcases List.mem_append.mp hc with hc | hc
      · rcases List.mem_append.mp hc with hc | hc
        · exact (hpre c hc).1
        · exact (trigger_false_of_not_original (hexp c hc)).2.2.2
      · exact (hpost c hc).1
    rw [hTls, hP1, hM6]
    exact ⟨e, es, rfl, h1, h2, h3, h4⟩

/-- Witness for the C6 theorem: default configuration, command list
`[G0 X0, M6 T3, G1 Y1]` with the M6 entry as the only trigger. -/
theorem single_trigger_expansion_witness :
    (buildInitialConfig {}).showMacroCommand = false ∧
    isM6Trigger ⟨"M6 T3", none, true, false⟩ = true ∧
    (∃ e es, onBeforeCommand
        ([⟨"G0 X0", none, true, false⟩] ++ ⟨"M6 T3", none, true, false⟩ ::
          [⟨"G1 Y1", none, true, false⟩]) {} (buildInitialConfig {}) =
        [⟨"G0 X0", none, true, false⟩] ++ (e :: es) ++ [⟨"G1 Y1", none, true, false⟩] ∧
      e.displayCommand = some (jsTrim "M6 T3") ∧ e.isOriginal = false ∧
      e.silent = false ∧
      ∀ x ∈ es, x.displayCommand = none ∧ x.isOriginal = false ∧ x.silent = true) :=
  ⟨rfl, by decide,
    single_trigger_expansion (buildInitialConfig {}) {} rfl
      [⟨"G0 X0", none, true, false⟩] [⟨"G1 Y1", none, true, false⟩]
      ⟨"M6 T3", none, true, false⟩
      (Or.inl (by decide))
      (by intro c hc; simp only [List.mem_cons, List.not_mem_nil, or_false] at hc;
          subst hc; exact ⟨by decide, by decide, by decide, Or.inl (by decide)⟩)
      (by intro c hc; simp only [List.mem_cons, List.not_mem_nil, or_false] at hc;
          subst hc; exact ⟨by decide, by decide, by decide, Or.inl (by decide)⟩)⟩

/-! ## C10: duplicate triggers — only the earliest expands -/

theorem all_entries {P : CommandEntry → Prop} {pre mid post : List CommandEntry}
    {t1 t2 : CommandEntry}
    (h1 : ∀ c ∈ pre, P c) (h2 : P t1) (h3 : ∀ c ∈ mid, P c) (h4 : P t2)
    (h5 : ∀ c ∈ post, P c) : ∀ c ∈ pre ++ t1 :: (mid ++ t2 :: post), P c := by
  intro c hc
  rcases List.mem_append.mp hc with hc | hc
  · exact h1 c hc
  · rcases List.mem_cons.mp hc with rfl | hc
    · exact h2
    · rcases List.mem_append.mp hc with hc | hc
      · exact h3 c hc
      · rcases List.mem_cons.mp hc with rfl | hc
        · exact h4
        · exact h5 c hc

theorem all_entries2 {P : CommandEntry → Prop}
    {pre exp mid post : List CommandEntry} {t2 : CommandEntry}
    (h1 : ∀ c ∈ pre, P c) (h2 : ∀ c ∈ exp, P c) (h3 : ∀ c ∈ mid, P c) (h4 : P t2)
    (h5 : ∀ c ∈ post, P c) : ∀ c ∈ pre ++ exp ++ (mid ++ t2 :: post), P c := by
  intro c hc
  rcases List.mem_append.mp hc with hc | hc
  · rcases List.mem_append.mp hc with hc | hc
    · exact h1 c hc
    · exact h2 c hc
  · rcases List.mem_append.mp hc with hc | hc
    · exact h3 c hc
    · rcases List.mem_cons.mp hc with rfl | hc
      · exact h4
      · exact h5 c hc

/-- **C10.**  If a command list contains two original entries matching the
same trigger category, a single call to `onBeforeCommand` expands only
the earliest one; the later matching entry passes through to the output
unchanged, in place, and still flagged `isOriginal = true`. -/
theorem duplicate_trigger_earliest_only (settings : Settings) (ctx : Context)
    (pre mid post : List CommandEntry) (t1 t2 : CommandEntry)
    (hcat : (isM6Trigger t1 = true ∧ isM6Trigger t2 = true) ∨
      (isTlsTrigger t1 = true ∧ isTlsTrigger t2 = true) ∨
      (isPocket1Trigger t1 = true ∧ isPocket1Trigger t2 = true) ∨
      (isHomeTrigger t1 = true ∧ isHomeTrigger t2 = true ∧
        settings.performTlsAfterHome = true))
    (hpre : ∀ c ∈ pre, isM6Trigger c = false ∧ isTlsTrigger c = false ∧
      isPocket1Trigger c = false ∧
      (isHomeTrigger c = false ∨ settings.performTlsAfterHome = false))
    (hmid : ∀ c ∈ mid, isM6Trigger c = false ∧ isTlsTrigger c = false ∧
      isPocket1Trigger c = false ∧
      (isHomeTrigger c = false ∨ settings.performTlsAfterHome = false))
    (hpost : ∀ c ∈ post, isM6Trigger c = false ∧ isTlsTrigger c = false ∧
      isPocket1Trigger c = false ∧
      (isHomeTrigger c = false ∨ settings.performTlsAfterHome = false)) :
    ∃ exp : List CommandEntry,
      onBeforeCommand (pre ++ t1 :: (mid ++ t2 :: post)) ctx settings =
        pre ++ exp ++ (mid ++ t2 :: post) ∧
      (∀ x ∈ exp, x.isOriginal = false) ∧
      t2.isOriginal = true := by
  unfold onBeforeCommand
  rcases hcat with ⟨hA, hB⟩ | ⟨hA, hB⟩ | ⟨hA, hB⟩ | ⟨hA, hB, hflag⟩
  · -- two M6 triggers
    obtain ⟨n, hn⟩ := isM6Trigger_parse hA
    have hHome : handleHomeCommand (pre ++ t1 :: (mid ++ t2 :: post)) ctx settings
        = pre ++ t1 :: (mid ++ t2 :: post) := by
      cases hf : settings.performTlsAfterHome with
      | false => exact handleHome_flag_off ctx _ hf
      | true =>
          exact handleHome_id ctx settings (all_entries
            (fun c hc => ((hpre c hc).2.2.2).resolve_right (by simp [hf]))
            (strTrig_false_of_ne (m6_norm_ne hA m6scan_home))
            (fun c hc => ((hmid c hc).2.2.2).resolve_right (by simp [hf]))
            (strTrig_false_of_ne (m6_norm_ne hB m6scan_home))
            (fun c hc => ((hpost c hc).2.2.2).resolve_right (by simp [hf])))
    have hTls := handleTLS_id ctx settings (all_entries
      (fun c hc => (hpre c hc).2.1)
      (strTrig_false_of_ne (m6_norm_ne hA m6scan_tls))
      (fun c hc => (hmid c hc).2.1)
      (strTrig_false_of_ne (m6_norm_ne hB m6scan_tls))
      (fun c hc => (hpost c hc).2.1))
    have hP1 := handlePocket1_id settings (all_entries
      (fun c hc => (hpre c hc).2.2.1)
      (strTrig_false_of_ne (m6_norm_ne hA m6scan_pocket1))
      (fun c hc => (hmid c hc).2.2.1)
      (strTrig_false_of_ne (m6_norm_ne hB m6scan_pocket1))
      (fun c hc => (hpost c hc).2.2.1))
    rw [hHome, hTls, hP1,
      handleM6_expand ctx settings (fun c hc => (hpre c hc).1) hA hn]
    refine ⟨_, rfl, expandLines_not_original _ _ _, ?_⟩
    unfold isM6Trigger at hB
    exact ((Bool.and_eq_true _ _).mp hB).1
  · -- two $TLS triggers
    have hnA := (strTrig_norm hA).1
    have hnB := (strTrig_norm hB).1
    have hHome : handleHomeCommand (pre ++ t1 :: (mid ++ t2 :: post)) ctx settings
        = pre ++ t1 :: (mid ++ t2 :: post) := by
      cases hf : settings.performTlsAfterHome with
      | false => exact handleHome_flag_off ctx _ hf
      | true =>
          exact handleHome_id ctx settings (all_entries
            (fun c hc => ((hpre c hc).2.2.2).resolve_right (by simp [hf]))
            (strTrig_false_of_norm hnA (by decide))
            (fun c hc => ((hmid c hc).2.2.2).resolve_right (by simp [hf]))
            (strTrig_false_of_norm hnB (by decide))
            (fun c hc => ((hpost c hc).2.2.2).resolve_right (by simp [hf])))
    rw [hHome, handleTLS_expand ctx settings (fun c hc => (hpre c hc).2.1) hA]
    have hexp := expandLines_not_original (createToolLengthSetProgram settings
      (getToolOffsets (ctx.machineStateTool.getD 0) ctx.tools)) t1.command
      settings.showMacroCommand
    have hP1 := handlePocket1_id settings (all_entries2
      (fun c hc => (hpre c hc).2.2.1)
      (fun c hc => (trigger_false_of_not_original (hexp c hc)).2.2.1)
      (fun c hc => (hmid c hc).2.2.1)
      (strTrig_false_of_norm hnB (by decide))
      (fun c hc => (hpost c hc).2.2.1))
    have hM6 := handleM6_id ctx settings (all_entries2
      (fun c hc => (hpre c hc).1)
      (fun c hc => (trigger_false_of_not_original (hexp c hc)).2.2.2)
      (fun c hc => (hmid c hc).1)
      (isM6_false_of_norm hnB m6scan_tls)
      (fun c hc => (hpost c hc).1))
    rw [hP1, hM6]
    exact ⟨_, rfl, hexp, (strTrig_norm hB).2⟩
  · -- two $POCKET1 triggers
    have hnA := (strTrig_norm hA).1
    have hnB := (strTrig_norm hB).1
    have hHome : handleHomeCommand (pre ++ t1 :: (mid ++ t2 :: post)) ctx settings
        = pre ++ t1 :: (mid ++ t2 :: post) := by
      cases hf : settings.performTlsAfterHome with
      | false => exact handleHome_flag_off ctx _ hf
      | true =>
          exact handleHome_id ctx settings (all_entries
            (fun c hc => ((hpre c hc).2.2.2).resolve_right (by simp [hf]))
            (strTrig_false_of_norm hnA (by decide))
            (fun c hc => ((hmid c hc).2.2.2).resolve_right (by simp [hf]))
            (strTrig_false_of_norm hnB (by decide))
            (fun c hc => ((hpost c hc).2.2.2).resolve_right (by simp [hf])))
    have hTls := handleTLS_id ctx settings (all_entries
      (fun c hc => (hpre c hc).2.1)
      (strTrig_false_of_norm hnA (by decide))
      (fun c hc => (hmid c hc).2.1)
      (strTrig_false_of_norm hnB (by decide))
      (fun c hc => (hpost c hc).2.1))
    rw [hHome, hTls,
      handlePocket1_expand settings (fun c hc => (hpre c hc).2.2.1) hA]
    have hexp := expandLines_not_original (formatGCode
      ["G53 G21 G90 G0 Z" ++ qStr settings.zSafe,
       "G53 G21 G90 G0 X" ++ qStr settings.pocket1.x ++ " Y"
         ++ qStr settings.pocket1.y]) t1.command settings.showMacroCommand
    have hM6 := handleM6_id ctx settings (all_entries2
      (fun c hc => (hpre c hc).1)
      (fun c hc => (trigger_false_of_not_original (hexp c hc)).2.2.2)
      (fun c hc => (hmid c hc).1)
      (isM6_false_of_norm hnB m6scan_pocket1)
      (fun c hc => (hpost c hc).1))
    rw [hM6]
    exact ⟨_, rfl, hexp, (strTrig_norm hB).2⟩
  · -- two $H triggers with performTlsAfterHome
    have hnB := (strTrig_norm hB).1
    rw [handleHome_expand ctx hflag
      (fun c hc => ((hpre c hc).2.2.2).resolve_right (by simp [hflag])) hA]
    have hexp := expandLines_not_original (formatGCode (homeGcodeTemplate settings
      (createToolLengthSetRoutine settings
        (getToolOffsets (ctx.machineStateTool.getD 0) ctx.tools)))) t1.command
      settings.showMacroCommand
    have hTls := handleTLS_id ctx settings (all_entries2
      (fun c hc => (hpre c hc).2.1)
      (fun c hc => (trigger_false_of_not_original (hexp c hc)).1)
      (fun c hc => (hmid c hc).2.1)
      (strTrig_false_of_norm hnB (by decide))
      (fun c hc => (hpost c hc).2.1))
    have hP1 := handlePocket1_id settings (all_entries2
      (fun c hc => (hpre c hc).2.2.1)
      (fun c hc => (trigger_false_of_not_original (hexp c hc)).2.2.1)
      (fun c hc => (hmid c hc).2.2.1)
      (strTrig_false_of_norm hnB (by decide))
      (fun c hc => (hpost c hc).2.2.1))
    have hM6 := handleM6_id ctx settings (all_entries2
      (fun c hc => (hpre c hc).1)
      (fun c hc => (trigger_false_of_not_original (hexp c hc)).2.2.2)
      (fun c hc => (hmid c hc).1)
      (isM6_false_of_norm hnB m6scan_home)
      (fun c hc => (hpost c hc).1))
    rw [hTls, hP1, hM6]
    exact ⟨_, rfl, hexp, (strTrig_norm hB).2⟩

/-- Witness for the C10 theorem: default configuration, two M6 commands
`M6 T2` and `T3 M6` separated by a plain motion command. -/
theorem duplicate_trigger_earliest_only_witness :
    isM6Trigger ⟨"M6 T2", none, true, false⟩ = true ∧
    isM6Trigger ⟨"T3 M6", none, true, false⟩ = true ∧
    (∃ exp : List CommandEntry,
      onBeforeCommand ([] ++ ⟨"M6 T2", none, true, false⟩ ::
          ([⟨"G0 X0", none, true, false⟩] ++ ⟨"T3 M6", none, true, false⟩ :: []))
        {} (buildInitialConfig {}) =
        [] ++ exp ++ ([⟨"G0 X0", none, true, false⟩] ++
          ⟨"T3 M6", none, true, false⟩ :: []) ∧
      (∀ x ∈ exp, x.isOriginal = false) ∧
      CommandEntry.isOriginal ⟨"T3 M6", none, true, false⟩ = true) :=
  ⟨by decide, by decide,
    duplicate_trigger_earliest_only (buildInitialConfig {}) {}
      [] [⟨"G0 X0", none, true, false⟩] []
      ⟨"M6 T2", none, true, false⟩ ⟨"T3 M6", none, true, false⟩
      (Or.inl ⟨by decide, by decide⟩)
      (fun c hc => absurd hc (List.not_mem_nil c))
      (by intro c hc; simp only [List.mem_cons, List.not_mem_nil, or_false] at hc;
          subst hc; exact ⟨by decide, by decide, by decide, Or.inl (by decide)⟩)
      (fun c hc => absurd hc (List.not_mem_nil c))⟩

end RapidChangeATC
